import Mathlib

/-
Verification development for the lotofacil-facilitador repository.

The repository consists of three Playwright end-to-end verification scripts:
  - verification/verify.py               (function run)
  - verification/comprehensive_verify.py (function run)
  - verification/verify_refactor.py      (function verify_game_search and its
    __main__ guard with a try/finally around browser.close())

Each script is a straight-line sequence of browser-automation calls
(goto, wait_for_selector, click, fill, screenshot, is_visible,
wait_for_timeout, browser.close), with Python try/except blocks that take a
diagnostic screenshot and re-raise on failure.

We embed the scripts shallowly: the behaviour of the external application and
browser is an oracle `Env` saying which call succeeds; a script is a function
in a state-exception monad `PyM` whose state is the trace of performed
effects (prints, navigations, waits, clicks, fills, screenshot writes,
visibility checks, browser closes).  Python exception semantics is mirrored:
an exception aborts the rest of the sequence but effects already performed
stay in the trace; `try/except` runs the handler on the state at the point of
failure; an exception raised inside an `except` block (for instance by a
failing screenshot call) propagates in place of the one being handled.
-/

/-- One observable effect performed by a script. -/
inductive Event where
  | printed (msg : String)
  | navigated (url : String)
  | waitedFor (selector : String) (timeoutMs : Nat)
  | clicked (locator : String)
  | filled (locator : String) (value : String)
  | screenshotWritten (path : String)
  | checkedVisible (selector : String)
  | waitedMs (ms : Nat)
  | browserClosed
deriving DecidableEq, Repr

/-- Failure raised by a browser-automation call, following the taxonomy the
spec gives for the underlying engine's errors. -/
inductive Err where
  | navigationTimeout (url : String)
  | conditionTimeout (selector : String) (timeoutMs : Nat)
  | locatorNotFound (locator : String)
  | screenshotCaptureFailure (path : String)
deriving DecidableEq, Repr

/-- Oracle for the external application/browser: which calls succeed. -/
structure Env where
  gotoOk : String → Bool
  selectorAppears : String → Nat → Bool
  clickOk : String → Bool
  fillOk : String → String → Bool
  screenshotOk : String → Bool
  isVisible : String → Bool

abbrev Trace := List Event

/-- State-exception monad for the Python scripts: the state is the trace of
effects performed so far, and it is kept when an exception is raised. -/
def PyM (α : Type) : Type := Trace → Trace × Except Err α

def pyPure {α : Type} (a : α) : PyM α := fun t => (t, Except.ok a)

def pyBind {α β : Type} (m : PyM α) (f : α → PyM β) : PyM β := fun t =>
  match m t with
  | (t', Except.ok a) => f a t'
  | (t', Except.error e) => (t', Except.error e)

instance : Monad PyM where
  pure := pyPure
  bind := pyBind

/-- `raise e`. -/
def pyThrow {α : Type} (e : Err) : PyM α := fun t => (t, Except.error e)

/-- Python `try: body except Exception as e: handler e`. -/
def pyTry (body : PyM Unit) (handler : Err → PyM Unit) : PyM Unit := fun t =>
  match body t with
  | (t', Except.ok _) => (t', Except.ok ())
  | (t', Except.error e) => handler e t'

/-- Python `try: body finally: fin` (as in verify_refactor's __main__ guard). -/
def pyFinally (body fin : PyM Unit) : PyM Unit := fun t =>
  match body t with
  | (t', Except.ok _) => fin t'
  | (t', Except.error e) =>
    match fin t' with
    | (t'', Except.ok _) => (t'', Except.error e)
    | (t'', Except.error e2) => (t'', Except.error e2)

def pyPrint (msg : String) : PyM Unit := fun t =>
  (t ++ [Event.printed msg], Except.ok ())

def pageGoto (env : Env) (url : String) : PyM Unit := fun t =>
  (t ++ [Event.navigated url],
    if env.gotoOk url then Except.ok () else Except.error (Err.navigationTimeout url))

def waitForSelector (env : Env) (sel : String) (timeoutMs : Nat) : PyM Unit := fun t =>
  (t ++ [Event.waitedFor sel timeoutMs],
    if env.selectorAppears sel timeoutMs then Except.ok ()
    else Except.error (Err.conditionTimeout sel timeoutMs))

def pageClick (env : Env) (loc : String) : PyM Unit := fun t =>
  (t ++ [Event.clicked loc],
    if env.clickOk loc then Except.ok () else Except.error (Err.locatorNotFound loc))

def pageFill (env : Env) (loc val : String) : PyM Unit := fun t =>
  (t ++ [Event.filled loc val],
    if env.fillOk loc val then Except.ok () else Except.error (Err.locatorNotFound loc))

/-- `page.screenshot(path=..)`: on success the artifact write is recorded; on
failure nothing is written and a capture failure is raised. -/
def pageScreenshot (env : Env) (path : String) : PyM Unit := fun t =>
  if env.screenshotOk path then (t ++ [Event.screenshotWritten path], Except.ok ())
  else (t, Except.error (Err.screenshotCaptureFailure path))

def pageIsVisible (env : Env) (sel : String) : PyM Bool := fun t =>
  (t ++ [Event.checkedVisible sel], Except.ok (env.isVisible sel))

/-- `page.wait_for_timeout(ms)`: unconditional pause, never fails. -/
def waitForTimeout (ms : Nat) : PyM Unit := fun t =>
  (t ++ [Event.waitedMs ms], Except.ok ())

def browserClose : PyM Unit := fun t =>
  (t ++ [Event.browserClosed], Except.ok ())

/-- `run(playwright)` of verification/comprehensive_verify.py, line for line. -/
def comprehensiveRun (env : Env) : PyM Unit := do
  pyPrint "Navigating to app..."
  pageGoto env "http://localhost:5173"
  pyPrint "Verifying initial load..."
  pyTry (do
      waitForSelector env "h3:has-text(\x27Números Mais Sorteados (Top 10)\x27)" 60000
      waitForSelector env "h3:has-text(\x27Último Sorteio:\x27)" 10000)
    (fun e => do
      pyPrint "Failed to load initial data."
      pageScreenshot env "verification/fail_initial_load.png"
      pyThrow e)
  pyPrint "Testing Generate Game and Backtest..."
  pyTry (do
      pageClick env "button:has-text(\x27Gerar Jogo\x27)"
      waitForSelector env "text=Seu jogo sugerido:" 10000
      waitForSelector env "text=Probabilidade Histórica (Backtest)" 10000
      waitForSelector env "text=11 Pontos" 5000
      pageScreenshot env "verification/success_backtest.png"
      pyPrint "Backtest verified.")
    (fun e => do
      pyPrint "Failed during Generate/Backtest verification."
      pageScreenshot env "verification/fail_backtest.png"
      pyThrow e)
  pyPrint "Testing Search Game..."
  pyTry (do
      pageFill env "input[placeholder*=\x27Digite o número do jogo\x27]" "3000"
      pageClick env "button:has-text(\x27Buscar Jogo\x27)"
      waitForSelector env "text=Dezenas do jogo 3000" 20000
      pageScreenshot env "verification/success_search.png"
      pyPrint "Search verified.")
    (fun e => do
      pyPrint "Failed during Search verification."
      pageScreenshot env "verification/fail_search.png"
      pyThrow e)
  browserClose

/-- `run(playwright)` of verification/verify.py, line for line.  The
`wait_for_selector` for the backtest header passes no timeout; Playwright's
default of 30000 ms applies. -/
def verifyRun (env : Env) : PyM Unit := do
  pageGoto env "http://localhost:5173"
  pyPrint "Waiting for data to load..."
  pyTry (waitForSelector env "h3:has-text(\x27Números Mais Sorteados (Top 10)\x27)" 60000)
    (fun e => do
      pyPrint "Timeout waiting for data to load. Taking screenshot..."
      pageScreenshot env "verification/error_loading.png"
      pyThrow e)
  pyPrint "Data loaded. Clicking button..."
  pageClick env "button:has-text(\x27Gerar Jogo\x27)"
  pyPrint "Waiting for suggestion..."
  pyTry (waitForSelector env "text=Seu jogo sugerido:" 10000)
    (fun e => do
      pyPrint "Timeout waiting for suggestion. Checking if error message appeared..."
      let vis ← pageIsVisible env ".bg-red-100"
      if vis then
        pyPrint "Error message found!"
      pyPrint "Taking screenshot..."
      pageScreenshot env "verification/error_suggestion_2.png"
      pyThrow e)
  waitForSelector env "text=Probabilidade Histórica (Backtest)" 30000
  pyPrint "Success. Taking screenshot..."
  pageScreenshot env "verification/screenshot.png"
  browserClose

/-- `verify_game_search(page)` of verification/verify_refactor.py.  The `h1`
wait uses Playwright's default timeout of 30000 ms; `get_by_role` is kept as a
descriptive locator string. -/
def verifyGameSearch (env : Env) : PyM Unit := do
  pageGoto env "http://localhost:5173"
  waitForSelector env "h1" 30000
  pageFill env "#gameNumberInput" "2500"
  pageScreenshot env "verification/verification_input.png"
  pageClick env "get_by_role(button, name=Buscar Jogo)"
  waitForTimeout 1000
  pageScreenshot env "verification/verification_search.png"

/-- The `__main__` guard of verification/verify_refactor.py: run
`verify_game_search` with `browser.close()` in a `finally` block. -/
def verifyRefactorMain (env : Env) : PyM Unit :=
  pyFinally (verifyGameSearch env) browserClose

def isShot : Event → Option String
  | Event.screenshotWritten p => some p
  | _ => none

/-- The screenshot paths written along a trace, in order. -/
def shots (t : Trace) : List String := t.filterMap isShot

def isClose : Event → Bool
  | Event.browserClosed => true
  | _ => false

/-- How many times the browser session was closed along a trace. -/
def closeCount (t : Trace) : Nat := (t.filter isClose).length

/-- Writing a screenshot to the artifact directory: overwrite semantics, so
the set of present paths gains `p` if it is new and is unchanged otherwise. -/
def writeShot (fs : List String) (p : String) : List String :=
  if p ∈ fs then fs else fs ++ [p]

/-- Apply a run's screenshot writes, in order, to an artifact directory. -/
def applyShots (fs : List String) : List String → List String
  | [] => fs
  | p :: ps => applyShots (writeShot fs p) ps

/-- The conditions checked by the initial-load phase of comprehensive_verify.py
all hold within their timeouts. -/
def initialLoadOk (env : Env) : Prop :=
  env.gotoOk "http://localhost:5173" = true ∧
  env.selectorAppears "h3:has-text(\x27Números Mais Sorteados (Top 10)\x27)" 60000 = true ∧
  env.selectorAppears "h3:has-text(\x27Último Sorteio:\x27)" 10000 = true

/-- Every call of the generate-and-backtest phase of comprehensive_verify.py
succeeds. -/
def backtestPhaseOk (env : Env) : Prop :=
  env.clickOk "button:has-text(\x27Gerar Jogo\x27)" = true ∧
  env.selectorAppears "text=Seu jogo sugerido:" 10000 = true ∧
  env.selectorAppears "text=Probabilidade Histórica (Backtest)" 10000 = true ∧
  env.selectorAppears "text=11 Pontos" 5000 = true ∧
  env.screenshotOk "verification/success_backtest.png" = true

/-- Every call of the search-game phase of comprehensive_verify.py succeeds. -/
def searchPhaseOk (env : Env) : Prop :=
  env.fillOk "input[placeholder*=\x27Digite o número do jogo\x27]" "3000" = true ∧
  env.clickOk "button:has-text(\x27Buscar Jogo\x27)" = true ∧
  env.selectorAppears "text=Dezenas do jogo 3000" 20000 = true ∧
  env.screenshotOk "verification/success_search.png" = true

/-- Every step of comprehensive_verify.py succeeds within its timeout. -/
def comprehensiveEnvOk (env : Env) : Prop :=
  initialLoadOk env ∧ backtestPhaseOk env ∧ searchPhaseOk env

/-- Every step of verify.py succeeds within its timeout. -/
def verifyEnvOk (env : Env) : Prop :=
  env.gotoOk "http://localhost:5173" = true ∧
  env.selectorAppears "h3:has-text(\x27Números Mais Sorteados (Top 10)\x27)" 60000 = true ∧
  env.clickOk "button:has-text(\x27Gerar Jogo\x27)" = true ∧
  env.selectorAppears "text=Seu jogo sugerido:" 10000 = true ∧
  env.selectorAppears "text=Probabilidade Histórica (Backtest)" 30000 = true ∧
  env.screenshotOk "verification/screenshot.png" = true

/-- The effect trace of a fully successful run of comprehensive_verify.py. -/
def comprehensiveSuccessTrace : Trace :=
  [Event.printed "Navigating to app...",
   Event.navigated "http://localhost:5173",
   Event.printed "Verifying initial load...",
   Event.waitedFor "h3:has-text(\x27Números Mais Sorteados (Top 10)\x27)" 60000,
   Event.waitedFor "h3:has-text(\x27Último Sorteio:\x27)" 10000,
   Event.printed "Testing Generate Game and Backtest...",
   Event.clicked "button:has-text(\x27Gerar Jogo\x27)",
   Event.waitedFor "text=Seu jogo sugerido:" 10000,
   Event.waitedFor "text=Probabilidade Histórica (Backtest)" 10000,
   Event.waitedFor "text=11 Pontos" 5000,
   Event.screenshotWritten "verification/success_backtest.png",
   Event.printed "Backtest verified.",
   Event.printed "Testing Search Game...",
   Event.filled "input[placeholder*=\x27Digite o número do jogo\x27]" "3000",
   Event.clicked "button:has-text(\x27Buscar Jogo\x27)",
   Event.waitedFor "text=Dezenas do jogo 3000" 20000,
   Event.screenshotWritten "verification/success_search.png",
   Event.printed "Search verified.",
   Event.browserClosed]

/-- The effect trace of a fully successful run of verify.py. -/
def verifySuccessTrace : Trace :=
  [Event.navigated "http://localhost:5173",
   Event.printed "Waiting for data to load...",
   Event.waitedFor "h3:has-text(\x27Números Mais Sorteados (Top 10)\x27)" 60000,
   Event.printed "Data loaded. Clicking button...",
   Event.clicked "button:has-text(\x27Gerar Jogo\x27)",
   Event.printed "Waiting for suggestion...",
   Event.waitedFor "text=Seu jogo sugerido:" 10000,
   Event.waitedFor "text=Probabilidade Histórica (Backtest)" 30000,
   Event.printed "Success. Taking screenshot...",
   Event.screenshotWritten "verification/screenshot.png",
   Event.browserClosed]

/-- The effect trace of comprehensive_verify.py when the "11 Pontos" wait is
the first call to fail and the diagnostic screenshot succeeds. -/
def backtestPontosFailTrace : Trace :=
  [Event.printed "Navigating to app...",
   Event.navigated "http://localhost:5173",
   Event.printed "Verifying initial load...",
   Event.waitedFor "h3:has-text(\x27Números Mais Sorteados (Top 10)\x27)" 60000,
   Event.waitedFor "h3:has-text(\x27Último Sorteio:\x27)" 10000,
   Event.printed "Testing Generate Game and Backtest...",
   Event.clicked "button:has-text(\x27Gerar Jogo\x27)",
   Event.waitedFor "text=Seu jogo sugerido:" 10000,
   Event.waitedFor "text=Probabilidade Histórica (Backtest)" 10000,
   Event.waitedFor "text=11 Pontos" 5000,
   Event.printed "Failed during Generate/Backtest verification.",
   Event.screenshotWritten "verification/fail_backtest.png"]

/-- The effect trace of comprehensive_verify.py when the search-result wait is
the first call to fail and the diagnostic screenshot succeeds: the backtest
success screenshot has already been written. -/
def searchDezenasFailTrace : Trace :=
  [Event.printed "Navigating to app...",
   Event.navigated "http://localhost:5173",
   Event.printed "Verifying initial load...",
   Event.waitedFor "h3:has-text(\x27Números Mais Sorteados (Top 10)\x27)" 60000,
   Event.waitedFor "h3:has-text(\x27Último Sorteio:\x27)" 10000,
   Event.printed "Testing Generate Game and Backtest...",
   Event.clicked "button:has-text(\x27Gerar Jogo\x27)",
   Event.waitedFor "text=Seu jogo sugerido:" 10000,
   Event.waitedFor "text=Probabilidade Histórica (Backtest)" 10000,
   Event.waitedFor "text=11 Pontos" 5000,
   Event.screenshotWritten "verification/success_backtest.png",
   Event.printed "Backtest verified.",
   Event.printed "Testing Search Game...",
   Event.filled "input[placeholder*=\x27Digite o número do jogo\x27]" "3000",
   Event.clicked "button:has-text(\x27Buscar Jogo\x27)",
   Event.waitedFor "text=Dezenas do jogo 3000" 20000,
   Event.printed "Failed during Search verification.",
   Event.screenshotWritten "verification/fail_search.png"]

/-- Environment in which every browser call succeeds (the application serves
all the expected content) and no error banner is shown. -/
def envAllOk : Env where
  gotoOk := fun _ => true
  selectorAppears := fun _ _ => true
  clickOk := fun _ => true
  fillOk := fun _ _ => true
  screenshotOk := fun _ => true
  isVisible := fun _ => false

/-- Environment in which everything succeeds except that the "11 Pontos"
backtest entry never becomes visible (its wait is the only one with a
5000 ms timeout). -/
def envPontosFail : Env :=
  { envAllOk with selectorAppears := fun _ ms => !(ms == 5000) }

/-- Environment in which the initial navigation to the app times out. -/
def envGotoFail : Env :=
  { envAllOk with gotoOk := fun _ => false }

/-- Environment in which the initial-load header (the only wait with a
60000 ms timeout) never appears, and screenshots succeed. -/
def envLoadFail : Env :=
  { envAllOk with selectorAppears := fun _ ms => !(ms == 60000) }

/-- Environment in which the initial-load header never appears and, in
addition, every screenshot capture fails. -/
def envLoadShotFail : Env :=
  { envLoadFail with screenshotOk := fun _ => false }

/-- Environment for verify.py in which everything succeeds except the
backtest-header wait (the only one with a 30000 ms timeout). -/
def envBacktestHeaderFail : Env :=
  { envAllOk with selectorAppears := fun _ ms => !(ms == 30000) }

/-- Environment for verify.py in which everything succeeds except the
suggestion wait (the only one with a 10000 ms timeout), with no error banner
visible. -/
def envSuggFail : Env :=
  { envAllOk with selectorAppears := fun _ ms => !(ms == 10000) }

/-- Like `envSuggFail` but with the `.bg-red-100` error banner visible. -/
def envSuggFailBanner : Env :=
  { envSuggFail with isVisible := fun _ => true }

/-- Environment in which everything succeeds except the Generate Game button
click (every click fails to resolve; in comprehensive_verify.py the Generate
Game click is the first click attempted). -/
def envClickGerarFail : Env :=
  { envAllOk with clickOk := fun _ => false }

/-- Environment in which everything succeeds except the search-result wait
(the only one with a 20000 ms timeout), as with a non-existent game number. -/
def envDezenasFail : Env :=
  { envAllOk with selectorAppears := fun _ ms => !(ms == 20000) }

def shotTrace (env : Env) (p : String) : Trace :=
  if env.screenshotOk p then [Event.screenshotWritten p] else []

def maskErr (env : Env) (p : String) (e : Err) : Err :=
  if env.screenshotOk p then e else Err.screenshotCaptureFailure p

def bannerTrace (env : Env) : Trace :=
  if env.isVisible ".bg-red-100" then [Event.printed "Error message found!"] else []

def compGotoTrace : Trace :=
  [Event.printed "Navigating to app...", Event.navigated "http://localhost:5173"]

def compTopWaitTrace : Trace :=
  compGotoTrace ++
  [Event.printed "Verifying initial load...",
   Event.waitedFor "h3:has-text(\x27Números Mais Sorteados (Top 10)\x27)" 60000]

def compLastDrawWaitTrace : Trace :=
  compTopWaitTrace ++ [Event.waitedFor "h3:has-text(\x27Último Sorteio:\x27)" 10000]

def compClickTrace : Trace :=
  compLastDrawWaitTrace ++
  [Event.printed "Testing Generate Game and Backtest...",
   Event.clicked "button:has-text(\x27Gerar Jogo\x27)"]

def compSuggWaitTrace : Trace :=
  compClickTrace ++ [Event.waitedFor "text=Seu jogo sugerido:" 10000]

def compBacktestWaitTrace : Trace :=
  compSuggWaitTrace ++ [Event.waitedFor "text=Probabilidade Histórica (Backtest)" 10000]

def compPontosWaitTrace : Trace :=
  compBacktestWaitTrace ++ [Event.waitedFor "text=11 Pontos" 5000]

def compFillTrace : Trace :=
  compPontosWaitTrace ++
  [Event.screenshotWritten "verification/success_backtest.png",
   Event.printed "Backtest verified.",
   Event.printed "Testing Search Game...",
   Event.filled "input[placeholder*=\x27Digite o número do jogo\x27]" "3000"]

def compBuscarClickTrace : Trace :=
  compFillTrace ++ [Event.clicked "button:has-text(\x27Buscar Jogo\x27)"]

def compDezenasWaitTrace : Trace :=
  compBuscarClickTrace ++ [Event.waitedFor "text=Dezenas do jogo 3000" 20000]

def verGotoTrace : Trace := [Event.navigated "http://localhost:5173"]

def verTopWaitTrace : Trace :=
  verGotoTrace ++
  [Event.printed "Waiting for data to load...",
   Event.waitedFor "h3:has-text(\x27Números Mais Sorteados (Top 10)\x27)" 60000]

def verClickTrace : Trace :=
  verTopWaitTrace ++
  [Event.printed "Data loaded. Clicking button...",
   Event.clicked "button:has-text(\x27Gerar Jogo\x27)"]

def verSuggWaitTrace : Trace :=
  verClickTrace ++
  [Event.printed "Waiting for suggestion...",
   Event.waitedFor "text=Seu jogo sugerido:" 10000]

def verBacktestWaitTrace : Trace :=
  verSuggWaitTrace ++ [Event.waitedFor "text=Probabilidade Histórica (Backtest)" 30000]

def envUltimoFail : Env :=
  { envAllOk with selectorAppears := fun s _ => !(s == "h3:has-text(\x27Último Sorteio:\x27)") }

def envSuggTextFail : Env :=
  { envAllOk with selectorAppears := fun s _ => !(s == "text=Seu jogo sugerido:") }

def envBacktestTextFail : Env :=
  { envAllOk with
      selectorAppears := fun s _ => !(s == "text=Probabilidade Histórica (Backtest)") }

def envFillFail : Env :=
  { envAllOk with fillOk := fun _ _ => false }

def envBuscarFail : Env :=
  { envAllOk with clickOk := fun l => !(l == "button:has-text(\x27Buscar Jogo\x27)") }

theorem bindDef {α β : Type} (m : PyM α) (f : α → PyM β) : m >>= f = pyBind m f := rfl

theorem pureDef {α : Type} (a : α) : (pure a : PyM α) = pyPure a := rfl

theorem mem_writeShot_self (fs : List String) (p : String) : p ∈ writeShot fs p := by
  unfold writeShot
  split
  · assumption
  · simp

theorem mem_writeShot_of_mem (fs : List String) (p q : String) (h : q ∈ fs) :
    q ∈ writeShot fs p := by
  unfold writeShot
  split
  · exact h
  · simp [h]

theorem writeShot_eq_of_mem (fs : List String) (p : String) (h : p ∈ fs) :
    writeShot fs p = fs := by
  simp [writeShot, h]

theorem mem_applyShots_of_mem (ps : List String) (fs : List String) (q : String)
    (h : q ∈ fs) : q ∈ applyShots fs ps := by
  induction ps generalizing fs with
  | nil => exact h
  | cons p ps ih => exact ih _ (mem_writeShot_of_mem fs p q h)

theorem mem_applyShots_of_mem_shots (ps : List String) (fs : List String) (p : String)
    (h : p ∈ ps) : p ∈ applyShots fs ps := by
  induction ps generalizing fs with
  | nil => cases h
  | cons q ps ih =>
    rw [applyShots]
    rcases List.mem_cons.mp h with hq | hp
    · subst hq
      exact mem_applyShots_of_mem ps _ p (mem_writeShot_self fs p)
    · exact ih (writeShot fs q) hp

theorem applyShots_eq_of_subset (ps : List String) (fs : List String)
    (h : ∀ p, p ∈ ps → p ∈ fs) : applyShots fs ps = fs := by
  induction ps generalizing fs with
  | nil => rfl
  | cons p ps ih =>
    unfold applyShots
    rw [writeShot_eq_of_mem fs p (h p (by simp))]
    exact ih fs (fun q hq => h q (by simp [hq]))

/-- Replaying the same screenshot writes a second time leaves the artifact
directory unchanged. -/
theorem applyShots_idem (fs ps : List String) :
    applyShots (applyShots fs ps) ps = applyShots fs ps :=
  applyShots_eq_of_subset ps _ (fun p hp => mem_applyShots_of_mem_shots ps fs p hp)

/-- On an environment satisfying `comprehensiveEnvOk`, comprehensive_verify.py
appends exactly `comprehensiveSuccessTrace` to any starting trace and returns
normally. -/
theorem comprehensiveRun_ok (env : Env) (h : comprehensiveEnvOk env) (t0 : Trace) :
    comprehensiveRun env t0 = (t0 ++ comprehensiveSuccessTrace, Except.ok ()) := by
  obtain ⟨⟨h1, h2, h3⟩, ⟨h4, h5, h6, h7, h8⟩, ⟨h9, h10, h11, h12⟩⟩ := h
  simp [comprehensiveRun, bindDef, pyTry, pyBind, pyPure, pyThrow, pyPrint, pageGoto,
        waitForSelector, pageClick, pageFill, pageScreenshot, browserClose,
        h1, h2, h3, h4, h5, h6, h7, h8, h9, h10, h11, h12, comprehensiveSuccessTrace]

/-- On an environment satisfying `verifyEnvOk`, verify.py appends exactly
`verifySuccessTrace` to any starting trace and returns normally. -/
theorem verifyRun_ok (env : Env) (h : verifyEnvOk env) (t0 : Trace) :
    verifyRun env t0 = (t0 ++ verifySuccessTrace, Except.ok ()) := by
  obtain ⟨h1, h2, h3, h4, h5, h6⟩ := h
  simp [verifyRun, bindDef, pureDef, pyTry, pyBind, pyPure, pyThrow, pyPrint, pageGoto,
        waitForSelector, pageClick, pageScreenshot, pageIsVisible, browserClose,
        h1, h2, h3, h4, h5, h6, verifySuccessTrace]

/-- When the search-result wait is the first call of comprehensive_verify.py
to fail and the diagnostic screenshot succeeds, the run produces
`searchDezenasFailTrace` and re-raises the condition timeout. -/
theorem searchDezenasFail_run (env : Env)
    (h1 : initialLoadOk env) (h2 : backtestPhaseOk env)
    (h3 : env.fillOk "input[placeholder*=\x27Digite o número do jogo\x27]" "3000" = true)
    (h4 : env.clickOk "button:has-text(\x27Buscar Jogo\x27)" = true)
    (h5 : env.selectorAppears "text=Dezenas do jogo 3000" 20000 = false)
    (h6 : env.screenshotOk "verification/fail_search.png" = true) :
    comprehensiveRun env [] =
      (searchDezenasFailTrace,
       Except.error (Err.conditionTimeout "text=Dezenas do jogo 3000" 20000)) := by
  obtain ⟨h1a, h1b, h1c⟩ := h1
  obtain ⟨h2a, h2b, h2c, h2d, h2e⟩ := h2
  simp [comprehensiveRun, bindDef, pyTry, pyBind, pyPure, pyThrow, pyPrint, pageGoto,
        waitForSelector, pageClick, pageFill, pageScreenshot, browserClose,
        h1a, h1b, h1c, h2a, h2b, h2c, h2d, h2e, h3, h4, h5, h6, searchDezenasFailTrace]

theorem comp_fail_goto (env : Env)
    (h1 : env.gotoOk "http://localhost:5173" = false) :
    comprehensiveRun env [] =
      (compGotoTrace, Except.error (Err.navigationTimeout "http://localhost:5173")) := by
  simp [comprehensiveRun, bindDef, pyTry, pyBind, pyPure, pyThrow, pyPrint, pageGoto,
        waitForSelector, pageClick, pageFill, pageScreenshot, browserClose,
        compGotoTrace, h1]

theorem comp_fail_topwait (env : Env)
    (h1 : env.gotoOk "http://localhost:5173" = true)
    (h2 : env.selectorAppears "h3:has-text(\x27Números Mais Sorteados (Top 10)\x27)" 60000 = false) :
    comprehensiveRun env [] =
      (compTopWaitTrace ++ [Event.printed "Failed to load initial data."] ++
         shotTrace env "verification/fail_initial_load.png",
       Except.error (maskErr env "verification/fail_initial_load.png"
         (Err.conditionTimeout "h3:has-text(\x27Números Mais Sorteados (Top 10)\x27)" 60000))) := by
  cases hs : env.screenshotOk "verification/fail_initial_load.png" <;>
    simp [comprehensiveRun, bindDef, pyTry, pyBind, pyPure, pyThrow, pyPrint, pageGoto,
          waitForSelector, pageClick, pageFill, pageScreenshot, browserClose,
          shotTrace, maskErr, compGotoTrace, compTopWaitTrace, h1, h2, hs]

theorem comp_fail_lastdraw (env : Env)
    (h1 : env.gotoOk "http://localhost:5173" = true)
    (h2 : env.selectorAppears "h3:has-text(\x27Números Mais Sorteados (Top 10)\x27)" 60000 = true)
    (h3 : env.selectorAppears "h3:has-text(\x27Último Sorteio:\x27)" 10000 = false) :
    comprehensiveRun env [] =
      (compLastDrawWaitTrace ++ [Event.printed "Failed to load initial data."] ++
         shotTrace env "verification/fail_initial_load.png",
       Except.error (maskErr env "verification/fail_initial_load.png"
         (Err.conditionTimeout "h3:has-text(\x27Último Sorteio:\x27)" 10000))) := by
  cases hs : env.screenshotOk "verification/fail_initial_load.png" <;>
    simp [comprehensiveRun, bindDef, pyTry, pyBind, pyPure, pyThrow, pyPrint, pageGoto,
          waitForSelector, pageClick, pageFill, pageScreenshot, browserClose,
          shotTrace, maskErr, compGotoTrace, compTopWaitTrace, compLastDrawWaitTrace,
          h1, h2, h3, hs]

theorem comp_fail_click (env : Env)
    (h1 : initialLoadOk env)
    (h2 : env.clickOk "button:has-text(\x27Gerar Jogo\x27)" = false) :
    comprehensiveRun env [] =
      (compClickTrace ++ [Event.printed "Failed during Generate/Backtest verification."] ++
         shotTrace env "verification/fail_backtest.png",
       Except.error (maskErr env "verification/fail_backtest.png"
         (Err.locatorNotFound "button:has-text(\x27Gerar Jogo\x27)"))) := by
  obtain ⟨h1a, h1b, h1c⟩ := h1
  cases hs : env.screenshotOk "verification/fail_backtest.png" <;>
    simp [comprehensiveRun, bindDef, pyTry, pyBind, pyPure, pyThrow, pyPrint, pageGoto,
          waitForSelector, pageClick, pageFill, pageScreenshot, browserClose,
          shotTrace, maskErr, compGotoTrace, compTopWaitTrace, compLastDrawWaitTrace,
          compClickTrace, h1a, h1b, h1c, h2, hs]

theorem comp_fail_sugg (env : Env)
    (h1 : initialLoadOk env)
    (h2 : env.clickOk "button:has-text(\x27Gerar Jogo\x27)" = true)
    (h3 : env.selectorAppears "text=Seu jogo sugerido:" 10000 = false) :
    comprehensiveRun env [] =
      (compSuggWaitTrace ++ [Event.printed "Failed during Generate/Backtest verification."] ++
         shotTrace env "verification/fail_backtest.png",
       Except.error (maskErr env "verification/fail_backtest.png"
         (Err.conditionTimeout "text=Seu jogo sugerido:" 10000))) := by
  obtain ⟨h1a, h1b, h1c⟩ := h1
  cases hs : env.screenshotOk "verification/fail_backtest.png" <;>
    simp [comprehensiveRun, bindDef, pyTry, pyBind, pyPure, pyThrow, pyPrint, pageGoto,
          waitForSelector, pageClick, pageFill, pageScreenshot, browserClose,
          shotTrace, maskErr, compGotoTrace, compTopWaitTrace, compLastDrawWaitTrace,
          compClickTrace, compSuggWaitTrace, h1a, h1b, h1c, h2, h3, hs]

theorem comp_fail_backtest (env : Env)
    (h1 : initialLoadOk env)
    (h2 : env.clickOk "button:has-text(\x27Gerar Jogo\x27)" = true)
    (h3 : env.selectorAppears "text=Seu jogo sugerido:" 10000 = true)
    (h4 : env.selectorAppears "text=Probabilidade Histórica (Backtest)" 10000 = false) :
    comprehensiveRun env [] =
      (compBacktestWaitTrace ++ [Event.printed "Failed during Generate/Backtest verification."] ++
         shotTrace env "verification/fail_backtest.png",
       Except.error (maskErr env "verification/fail_backtest.png"
         (Err.conditionTimeout "text=Probabilidade Histórica (Backtest)" 10000))) := by
  obtain ⟨h1a, h1b, h1c⟩ := h1
  cases hs : env.screenshotOk "verification/fail_backtest.png" <;>
    simp [comprehensiveRun, bindDef, pyTry, pyBind, pyPure, pyThrow, pyPrint, pageGoto,
          waitForSelector, pageClick, pageFill, pageScreenshot, browserClose,
          shotTrace, maskErr, compGotoTrace, compTopWaitTrace, compLastDrawWaitTrace,
          compClickTrace, compSuggWaitTrace, compBacktestWaitTrace,
          h1a, h1b, h1c, h2, h3, h4, hs]

theorem comp_fail_pontos (env : Env)
    (h1 : initialLoadOk env)
    (h2 : env.clickOk "button:has-text(\x27Gerar Jogo\x27)" = true)
    (h3 : env.selectorAppears "text=Seu jogo sugerido:" 10000 = true)
    (h4 : env.selectorAppears "text=Probabilidade Histórica (Backtest)" 10000 = true)
    (h5 : env.selectorAppears "text=11 Pontos" 5000 = false) :
    comprehensiveRun env [] =
      (compPontosWaitTrace ++ [Event.printed "Failed during Generate/Backtest verification."] ++
         shotTrace env "verification/fail_backtest.png",
       Except.error (maskErr env "verification/fail_backtest.png"
         (Err.conditionTimeout "text=11 Pontos" 5000))) := by
  obtain ⟨h1a, h1b, h1c⟩ := h1
  cases hs : env.screenshotOk "verification/fail_backtest.png" <;>
    simp [comprehensiveRun, bindDef, pyTry, pyBind, pyPure, pyThrow, pyPrint, pageGoto,
          waitForSelector, pageClick, pageFill, pageScreenshot, browserClose,
          shotTrace, maskErr, compGotoTrace, compTopWaitTrace, compLastDrawWaitTrace,
          compClickTrace, compSuggWaitTrace, compBacktestWaitTrace, compPontosWaitTrace,
          h1a, h1b, h1c, h2, h3, h4, h5, hs]

theorem comp_fail_fill (env : Env)
    (h1 : initialLoadOk env) (h2 : backtestPhaseOk env)
    (h3 : env.fillOk "input[placeholder*=\x27Digite o número do jogo\x27]" "3000" = false) :
    comprehensiveRun env [] =
      (compFillTrace ++ [Event.printed "Failed during Search verification."] ++
         shotTrace env "verification/fail_search.png",
       Except.error (maskErr env "verification/fail_search.png"
         (Err.locatorNotFound "input[placeholder*=\x27Digite o número do jogo\x27]"))) := by
  obtain ⟨h1a, h1b, h1c⟩ := h1
  obtain ⟨h2a, h2b, h2c, h2d, h2e⟩ := h2
  cases hs : env.screenshotOk "verification/fail_search.png" <;>
    simp [comprehensiveRun, bindDef, pyTry, pyBind, pyPure, pyThrow, pyPrint, pageGoto,
          waitForSelector, pageClick, pageFill, pageScreenshot, browserClose,
          shotTrace, maskErr, compGotoTrace, compTopWaitTrace, compLastDrawWaitTrace,
          compClickTrace, compSuggWaitTrace, compBacktestWaitTrace, compPontosWaitTrace,
          compFillTrace, h1a, h1b, h1c, h2a, h2b, h2c, h2d, h2e, h3, hs]

theorem comp_fail_buscar (env : Env)
    (h1 : initialLoadOk env) (h2 : backtestPhaseOk env)
    (h3 : env.fillOk "input[placeholder*=\x27Digite o número do jogo\x27]" "3000" = true)
    (h4 : env.clickOk "button:has-text(\x27Buscar Jogo\x27)" = false) :
    comprehensiveRun env [] =
      (compBuscarClickTrace ++ [Event.printed "Failed during Search verification."] ++
         shotTrace env "verification/fail_search.png",
       Except.error (maskErr env "verification/fail_search.png"
         (Err.locatorNotFound "button:has-text(\x27Buscar Jogo\x27)"))) := by
  obtain ⟨h1a, h1b, h1c⟩ := h1
  obtain ⟨h2a, h2b, h2c, h2d, h2e⟩ := h2
  cases hs : env.screenshotOk "verification/fail_search.png" <;>
    simp [comprehensiveRun, bindDef, pyTry, pyBind, pyPure, pyThrow, pyPrint, pageGoto,
          waitForSelector, pageClick, pageFill, pageScreenshot, browserClose,
          shotTrace, maskErr, compGotoTrace, compTopWaitTrace, compLastDrawWaitTrace,
          compClickTrace, compSuggWaitTrace, compBacktestWaitTrace, compPontosWaitTrace,
          compFillTrace, compBuscarClickTrace, h1a, h1b, h1c, h2a, h2b, h2c, h2d, h2e,
          h3, h4, hs]

theorem comp_fail_dezenas (env : Env)
    (h1 : initialLoadOk env) (h2 : backtestPhaseOk env)
    (h3 : env.fillOk "input[placeholder*=\x27Digite o número do jogo\x27]" "3000" = true)
    (h4 : env.clickOk "button:has-text(\x27Buscar Jogo\x27)" = true)
    (h5 : env.selectorAppears "text=Dezenas do jogo 3000" 20000 = false) :
    comprehensiveRun env [] =
      (compDezenasWaitTrace ++ [Event.printed "Failed during Search verification."] ++
         shotTrace env "verification/fail_search.png",
       Except.error (maskErr env "verification/fail_search.png"
         (Err.conditionTimeout "text=Dezenas do jogo 3000" 20000))) := by
  obtain ⟨h1a, h1b, h1c⟩ := h1
  obtain ⟨h2a, h2b, h2c, h2d, h2e⟩ := h2
  cases hs : env.screenshotOk "verification/fail_search.png" <;>
    simp [comprehensiveRun, bindDef, pyTry, pyBind, pyPure, pyThrow, pyPrint, pageGoto,
          waitForSelector, pageClick, pageFill, pageScreenshot, browserClose,
          shotTrace, maskErr, compGotoTrace, compTopWaitTrace, compLastDrawWaitTrace,
          compClickTrace, compSuggWaitTrace, compBacktestWaitTrace, compPontosWaitTrace,
          compFillTrace, compBuscarClickTrace, compDezenasWaitTrace,
          h1a, h1b, h1c, h2a, h2b, h2c, h2d, h2e, h3, h4, h5, hs]

theorem ver_fail_goto (env : Env)
    (h1 : env.gotoOk "http://localhost:5173" = false) :
    verifyRun env [] =
      (verGotoTrace, Except.error (Err.navigationTimeout "http://localhost:5173")) := by
  simp [verifyRun, bindDef, pureDef, pyTry, pyBind, pyPure, pyThrow, pyPrint, pageGoto,
        waitForSelector, pageClick, pageScreenshot, pageIsVisible, browserClose,
        verGotoTrace, h1]

theorem ver_fail_topwait (env : Env)
    (h1 : env.gotoOk "http://localhost:5173" = true)
    (h2 : env.selectorAppears "h3:has-text(\x27Números Mais Sorteados (Top 10)\x27)" 60000 = false) :
    verifyRun env [] =
      (verTopWaitTrace ++
         [Event.printed "Timeout waiting for data to load. Taking screenshot..."] ++
         shotTrace env "verification/error_loading.png",
       Except.error (maskErr env "verification/error_loading.png"
         (Err.conditionTimeout "h3:has-text(\x27Números Mais Sorteados (Top 10)\x27)" 60000))) := by
  cases hs : env.screenshotOk "verification/error_loading.png" <;>
    simp [verifyRun, bindDef, pureDef, pyTry, pyBind, pyPure, pyThrow, pyPrint, pageGoto,
          waitForSelector, pageClick, pageScreenshot, pageIsVisible, browserClose,
          shotTrace, maskErr, verGotoTrace, verTopWaitTrace, h1, h2, hs]

theorem ver_fail_click (env : Env)
    (h1 : env.gotoOk "http://localhost:5173" = true)
    (h2 : env.selectorAppears "h3:has-text(\x27Números Mais Sorteados (Top 10)\x27)" 60000 = true)
    (h3 : env.clickOk "button:has-text(\x27Gerar Jogo\x27)" = false) :
    verifyRun env [] =
      (verClickTrace,
       Except.error (Err.locatorNotFound "button:has-text(\x27Gerar Jogo\x27)")) := by
  simp [verifyRun, bindDef, pureDef, pyTry, pyBind, pyPure, pyThrow, pyPrint, pageGoto,
        waitForSelector, pageClick, pageScreenshot, pageIsVisible, browserClose,
        verGotoTrace, verTopWaitTrace, verClickTrace, h1, h2, h3]

theorem ver_fail_sugg (env : Env)
    (h1 : env.gotoOk "http://localhost:5173" = true)
    (h2 : env.selectorAppears "h3:has-text(\x27Números Mais Sorteados (Top 10)\x27)" 60000 = true)
    (h3 : env.clickOk "button:has-text(\x27Gerar Jogo\x27)" = true)
    (h4 : env.selectorAppears "text=Seu jogo sugerido:" 10000 = false) :
    verifyRun env [] =
      (verSuggWaitTrace ++
         [Event.printed "Timeout waiting for suggestion. Checking if error message appeared...",
          Event.checkedVisible ".bg-red-100"] ++
         bannerTrace env ++ [Event.printed "Taking screenshot..."] ++
         shotTrace env "verification/error_suggestion_2.png",
       Except.error (maskErr env "verification/error_suggestion_2.png"
         (Err.conditionTimeout "text=Seu jogo sugerido:" 10000))) := by
  cases hv : env.isVisible ".bg-red-100" <;>
    cases hs : env.screenshotOk "verification/error_suggestion_2.png" <;>
      simp [verifyRun, bindDef, pureDef, pyTry, pyBind, pyPure, pyThrow, pyPrint, pageGoto,
            waitForSelector, pageClick, pageScreenshot, pageIsVisible, browserClose,
            shotTrace, maskErr, bannerTrace, verGotoTrace, verTopWaitTrace, verClickTrace,
            verSuggWaitTrace, h1, h2, h3, h4, hv, hs]

theorem ver_fail_backtest (env : Env)
    (h1 : env.gotoOk "http://localhost:5173" = true)
    (h2 : env.selectorAppears "h3:has-text(\x27Números Mais Sorteados (Top 10)\x27)" 60000 = true)
    (h3 : env.clickOk "button:has-text(\x27Gerar Jogo\x27)" = true)
    (h4 : env.selectorAppears "text=Seu jogo sugerido:" 10000 = true)
    (h5 : env.selectorAppears "text=Probabilidade Histórica (Backtest)" 30000 = false) :
    verifyRun env [] =
      (verBacktestWaitTrace,
       Except.error (Err.conditionTimeout "text=Probabilidade Histórica (Backtest)" 30000)) := by
  simp [verifyRun, bindDef, pureDef, pyTry, pyBind, pyPure, pyThrow, pyPrint, pageGoto,
        waitForSelector, pageClick, pageScreenshot, pageIsVisible, browserClose,
        verGotoTrace, verTopWaitTrace, verClickTrace, verSuggWaitTrace, verBacktestWaitTrace,
        h1, h2, h3, h4, h5]

theorem comprehensive_fail_no_close (env : Env) (e : Err)
    (h : (comprehensiveRun env []).2 = Except.error e) :
    closeCount (comprehensiveRun env []).1 = 0 := by
  cases h1 : env.gotoOk "http://localhost:5173"
  · simp [comprehensiveRun, bindDef, pyTry, pyBind, pyPure, pyThrow, pyPrint, pageGoto,
          waitForSelector, pageClick, pageFill, pageScreenshot, browserClose,
          closeCount, isClose, h1]
  · cases h2 : env.selectorAppears "h3:has-text(\x27Números Mais Sorteados (Top 10)\x27)" 60000
    · cases hs : env.screenshotOk "verification/fail_initial_load.png" <;>
        simp [comprehensiveRun, bindDef, pyTry, pyBind, pyPure, pyThrow, pyPrint, pageGoto,
              waitForSelector, pageClick, pageFill, pageScreenshot, browserClose,
              closeCount, isClose, h1, h2, hs]
    · cases h3 : env.selectorAppears "h3:has-text(\x27Último Sorteio:\x27)" 10000
      · cases hs : env.screenshotOk "verification/fail_initial_load.png" <;>
          simp [comprehensiveRun, bindDef, pyTry, pyBind, pyPure, pyThrow, pyPrint, pageGoto,
                waitForSelector, pageClick, pageFill, pageScreenshot, browserClose,
                closeCount, isClose, h1, h2, h3, hs]
      · cases h4 : env.clickOk "button:has-text(\x27Gerar Jogo\x27)"
        · cases hs : env.screenshotOk "verification/fail_backtest.png" <;>
            simp [comprehensiveRun, bindDef, pyTry, pyBind, pyPure, pyThrow, pyPrint, pageGoto,
                  waitForSelector, pageClick, pageFill, pageScreenshot, browserClose,
                  closeCount, isClose, h1, h2, h3, h4, hs]
        · cases h5 : env.selectorAppears "text=Seu jogo sugerido:" 10000
          · cases hs : env.screenshotOk "verification/fail_backtest.png" <;>
              simp [comprehensiveRun, bindDef, pyTry, pyBind, pyPure, pyThrow, pyPrint,
                    pageGoto, waitForSelector, pageClick, pageFill, pageScreenshot,
                    browserClose, closeCount, isClose, h1, h2, h3, h4, h5, hs]
          · cases h6 : env.selectorAppears "text=Probabilidade Histórica (Backtest)" 10000
            · cases hs : env.screenshotOk "verification/fail_backtest.png" <;>
                simp [comprehensiveRun, bindDef, pyTry, pyBind, pyPure, pyThrow, pyPrint,
                      pageGoto, waitForSelector, pageClick, pageFill, pageScreenshot,
                      browserClose, closeCount, isClose, h1, h2, h3, h4, h5, h6, hs]
            · cases h7 : env.selectorAppears "text=11 Pontos" 5000
              · cases hs : env.screenshotOk "verification/fail_backtest.png" <;>
                  simp [comprehensiveRun, bindDef, pyTry, pyBind, pyPure, pyThrow, pyPrint,
                        pageGoto, waitForSelector, pageClick, pageFill, pageScreenshot,
                        browserClose, closeCount, isClose, h1, h2, h3, h4, h5, h6, h7, hs]
              · cases h8 : env.screenshotOk "verification/success_backtest.png"
                · cases hs : env.screenshotOk "verification/fail_backtest.png" <;>
                    simp [comprehensiveRun, bindDef, pyTry, pyBind, pyPure, pyThrow, pyPrint,
                          pageGoto, waitForSelector, pageClick, pageFill, pageScreenshot,
                          browserClose, closeCount, isClose,
                          h1, h2, h3, h4, h5, h6, h7, h8, hs]
                · cases h9 : env.fillOk "input[placeholder*=\x27Digite o número do jogo\x27]" "3000"
                  · cases hs : env.screenshotOk "verification/fail_search.png" <;>
                      simp [comprehensiveRun, bindDef, pyTry, pyBind, pyPure, pyThrow, pyPrint,
                            pageGoto, waitForSelector, pageClick, pageFill, pageScreenshot,
                            browserClose, closeCount, isClose,
                            h1, h2, h3, h4, h5, h6, h7, h8, h9, hs]
                  · cases h10 : env.clickOk "button:has-text(\x27Buscar Jogo\x27)"
                    · cases hs : env.screenshotOk "verification/fail_search.png" <;>
                        simp [comprehensiveRun, bindDef, pyTry, pyBind, pyPure, pyThrow,
                              pyPrint, pageGoto, waitForSelector, pageClick, pageFill,
                              pageScreenshot, browserClose, closeCount, isClose,
                              h1, h2, h3, h4, h5, h6, h7, h8, h9, h10, hs]
                    · cases h11 : env.selectorAppears "text=Dezenas do jogo 3000" 20000
                      · cases hs : env.screenshotOk "verification/fail_search.png" <;>
                          simp [comprehensiveRun, bindDef, pyTry, pyBind, pyPure, pyThrow,
                                pyPrint, pageGoto, waitForSelector, pageClick, pageFill,
                                pageScreenshot, browserClose, closeCount, isClose,
                                h1, h2, h3, h4, h5, h6, h7, h8, h9, h10, h11, hs]
                      · cases h12 : env.screenshotOk "verification/success_search.png"
                        · cases hs : env.screenshotOk "verification/fail_search.png" <;>
                            simp [comprehensiveRun, bindDef, pyTry, pyBind, pyPure, pyThrow,
                                  pyPrint, pageGoto, waitForSelector, pageClick, pageFill,
                                  pageScreenshot, browserClose, closeCount, isClose,
                                  h1, h2, h3, h4, h5, h6, h7, h8, h9, h10, h11, h12, hs]
                        · rw [comprehensiveRun_ok env
                              ⟨⟨h1, h2, h3⟩, ⟨h4, h5, h6, h7, h8⟩, ⟨h9, h10, h11, h12⟩⟩ []] at h
                          simp at h

theorem verify_fail_no_close (env : Env) (e : Err)
    (h : (verifyRun env []).2 = Except.error e) :
    closeCount (verifyRun env []).1 = 0 := by
  cases h1 : env.gotoOk "http://localhost:5173"
  · simp [verifyRun, bindDef, pureDef, pyTry, pyBind, pyPure, pyThrow, pyPrint, pageGoto,
          waitForSelector, pageClick, pageScreenshot, pageIsVisible, browserClose,
          closeCount, isClose, h1]
  · cases h2 : env.selectorAppears "h3:has-text(\x27Números Mais Sorteados (Top 10)\x27)" 60000
    · cases hs : env.screenshotOk "verification/error_loading.png" <;>
        simp [verifyRun, bindDef, pureDef, pyTry, pyBind, pyPure, pyThrow, pyPrint, pageGoto,
              waitForSelector, pageClick, pageScreenshot, pageIsVisible, browserClose,
              closeCount, isClose, h1, h2, hs]
    · cases h3 : env.clickOk "button:has-text(\x27Gerar Jogo\x27)"
      · simp [verifyRun, bindDef, pureDef, pyTry, pyBind, pyPure, pyThrow, pyPrint, pageGoto,
              waitForSelector, pageClick, pageScreenshot, pageIsVisible, browserClose,
              closeCount, isClose, h1, h2, h3]
      · cases h4 : env.selectorAppears "text=Seu jogo sugerido:" 10000
        · cases hv : env.isVisible ".bg-red-100" <;>
            cases hs : env.screenshotOk "verification/error_suggestion_2.png" <;>
              simp [verifyRun, bindDef, pureDef, pyTry, pyBind, pyPure, pyThrow, pyPrint,
                    pageGoto, waitForSelector, pageClick, pageScreenshot, pageIsVisible,
                    browserClose, closeCount, isClose, h1, h2, h3, h4, hv, hs]
        · cases h5 : env.selectorAppears "text=Probabilidade Histórica (Backtest)" 30000
          · simp [verifyRun, bindDef, pureDef, pyTry, pyBind, pyPure, pyThrow, pyPrint,
                  pageGoto, waitForSelector, pageClick, pageScreenshot, pageIsVisible,
                  browserClose, closeCount, isClose, h1, h2, h3, h4, h5]
          · cases h6 : env.screenshotOk "verification/screenshot.png"
            · simp [verifyRun, bindDef, pureDef, pyTry, pyBind, pyPure, pyThrow, pyPrint,
                    pageGoto, waitForSelector, pageClick, pageScreenshot, pageIsVisible,
                    browserClose, closeCount, isClose, h1, h2, h3, h4, h5, h6]
            · rw [verifyRun_ok env ⟨h1, h2, h3, h4, h5, h6⟩ []] at h
              simp at h

/-- Claim C1, counterexample: the claim as stated is false.  In verify.py the
wait for the backtest header is outside every try block; in the environment
where only that condition fails, the run terminates with the failure but no
diagnostic screenshot at all has been captured. -/
theorem claim1_counterexample :
    (verifyRun envBacktestHeaderFail []).2 =
      Except.error (Err.conditionTimeout "text=Probabilidade Histórica (Backtest)" 30000) ∧
    shots (verifyRun envBacktestHeaderFail []).1 = [] := ⟨rfl, rfl⟩

/-- Claim C1 (corrected): for every verification step of both run scripts,
either the step completes within its timeout or the run terminates with that
step's own failure, never retrying the step.  For every step inside one of
the guarded try/except phases (all nine fallible steps of
comprehensive_verify.py after its navigation, and the two guarded waits of
verify.py), the full effect trace is pinned: the step is attempted exactly
once and the handler captures a diagnostic screenshot as the last effect
before the original failure is re-raised unchanged.  For the four steps
outside every try block (the navigation of either script, and verify.py's
Generate Game click and final backtest-header wait), the run terminates with
the original failure but no screenshot at all is captured. -/
theorem claim1_step_failure_semantics (env : Env) :
    (env.gotoOk "http://localhost:5173" = true →
     env.selectorAppears "h3:has-text(\x27Números Mais Sorteados (Top 10)\x27)" 60000 = false →
     env.screenshotOk "verification/fail_initial_load.png" = true →
       comprehensiveRun env [] =
         (compTopWaitTrace ++
            [Event.printed "Failed to load initial data.",
             Event.screenshotWritten "verification/fail_initial_load.png"],
          Except.error
            (Err.conditionTimeout "h3:has-text(\x27Números Mais Sorteados (Top 10)\x27)" 60000))) ∧
    (env.gotoOk "http://localhost:5173" = true →
     env.selectorAppears "h3:has-text(\x27Números Mais Sorteados (Top 10)\x27)" 60000 = true →
     env.selectorAppears "h3:has-text(\x27Último Sorteio:\x27)" 10000 = false →
     env.screenshotOk "verification/fail_initial_load.png" = true →
       comprehensiveRun env [] =
         (compLastDrawWaitTrace ++
            [Event.printed "Failed to load initial data.",
             Event.screenshotWritten "verification/fail_initial_load.png"],
          Except.error (Err.conditionTimeout "h3:has-text(\x27Último Sorteio:\x27)" 10000))) ∧
    (initialLoadOk env →
     env.clickOk "button:has-text(\x27Gerar Jogo\x27)" = false →
     env.screenshotOk "verification/fail_backtest.png" = true →
       comprehensiveRun env [] =
         (compClickTrace ++
            [Event.printed "Failed during Generate/Backtest verification.",
             Event.screenshotWritten "verification/fail_backtest.png"],
          Except.error (Err.locatorNotFound "button:has-text(\x27Gerar Jogo\x27)"))) ∧
    (initialLoadOk env →
     env.clickOk "button:has-text(\x27Gerar Jogo\x27)" = true →
     env.selectorAppears "text=Seu jogo sugerido:" 10000 = false →
     env.screenshotOk "verification/fail_backtest.png" = true →
       comprehensiveRun env [] =
         (compSuggWaitTrace ++
            [Event.printed "Failed during Generate/Backtest verification.",
             Event.screenshotWritten "verification/fail_backtest.png"],
          Except.error (Err.conditionTimeout "text=Seu jogo sugerido:" 10000))) ∧
    (initialLoadOk env →
     env.clickOk "button:has-text(\x27Gerar Jogo\x27)" = true →
     env.selectorAppears "text=Seu jogo sugerido:" 10000 = true →
     env.selectorAppears "text=Probabilidade Histórica (Backtest)" 10000 = false →
     env.screenshotOk "verification/fail_backtest.png" = true →
       comprehensiveRun env [] =
         (compBacktestWaitTrace ++
            [Event.printed "Failed during Generate/Backtest verification.",
             Event.screenshotWritten "verification/fail_backtest.png"],
          Except.error
            (Err.conditionTimeout "text=Probabilidade Histórica (Backtest)" 10000))) ∧
    (initialLoadOk env →
     env.clickOk "button:has-text(\x27Gerar Jogo\x27)" = true →
     env.selectorAppears "text=Seu jogo sugerido:" 10000 = true →
     env.selectorAppears "text=Probabilidade Histórica (Backtest)" 10000 = true →
     env.selectorAppears "text=11 Pontos" 5000 = false →
     env.screenshotOk "verification/fail_backtest.png" = true →
       comprehensiveRun env [] =
         (compPontosWaitTrace ++
            [Event.printed "Failed during Generate/Backtest verification.",
             Event.screenshotWritten "verification/fail_backtest.png"],
          Except.error (Err.conditionTimeout "text=11 Pontos" 5000))) ∧
    (initialLoadOk env → backtestPhaseOk env →
     env.fillOk "input[placeholder*=\x27Digite o número do jogo\x27]" "3000" = false →
     env.screenshotOk "verification/fail_search.png" = true →
       comprehensiveRun env [] =
         (compFillTrace ++
            [Event.printed "Failed during Search verification.",
             Event.screenshotWritten "verification/fail_search.png"],
          Except.error
            (Err.locatorNotFound "input[placeholder*=\x27Digite o número do jogo\x27]"))) ∧
    (initialLoadOk env → backtestPhaseOk env →
     env.fillOk "input[placeholder*=\x27Digite o número do jogo\x27]" "3000" = true →
     env.clickOk "button:has-text(\x27Buscar Jogo\x27)" = false →
     env.screenshotOk "verification/fail_search.png" = true →
       comprehensiveRun env [] =
         (compBuscarClickTrace ++
            [Event.printed "Failed during Search verification.",
             Event.screenshotWritten "verification/fail_search.png"],
          Except.error (Err.locatorNotFound "button:has-text(\x27Buscar Jogo\x27)"))) ∧
    (initialLoadOk env → backtestPhaseOk env →
     env.fillOk "input[placeholder*=\x27Digite o número do jogo\x27]" "3000" = true →
     env.clickOk "button:has-text(\x27Buscar Jogo\x27)" = true →
     env.selectorAppears "text=Dezenas do jogo 3000" 20000 = false →
     env.screenshotOk "verification/fail_search.png" = true →
       comprehensiveRun env [] =
         (compDezenasWaitTrace ++
            [Event.printed "Failed during Search verification.",
             Event.screenshotWritten "verification/fail_search.png"],
          Except.error (Err.conditionTimeout "text=Dezenas do jogo 3000" 20000))) ∧
    (env.gotoOk "http://localhost:5173" = true →
     env.selectorAppears "h3:has-text(\x27Números Mais Sorteados (Top 10)\x27)" 60000 = false →
     env.screenshotOk "verification/error_loading.png" = true →
       verifyRun env [] =
         (verTopWaitTrace ++
            [Event.printed "Timeout waiting for data to load. Taking screenshot...",
             Event.screenshotWritten "verification/error_loading.png"],
          Except.error
            (Err.conditionTimeout "h3:has-text(\x27Números Mais Sorteados (Top 10)\x27)" 60000))) ∧
    (env.gotoOk "http://localhost:5173" = true →
     env.selectorAppears "h3:has-text(\x27Números Mais Sorteados (Top 10)\x27)" 60000 = true →
     env.clickOk "button:has-text(\x27Gerar Jogo\x27)" = true →
     env.selectorAppears "text=Seu jogo sugerido:" 10000 = false →
     env.screenshotOk "verification/error_suggestion_2.png" = true →
       verifyRun env [] =
         (verSuggWaitTrace ++
            [Event.printed "Timeout waiting for suggestion. Checking if error message appeared...",
             Event.checkedVisible ".bg-red-100"] ++
            bannerTrace env ++
            [Event.printed "Taking screenshot...",
             Event.screenshotWritten "verification/error_suggestion_2.png"],
          Except.error (Err.conditionTimeout "text=Seu jogo sugerido:" 10000))) ∧
    (env.gotoOk "http://localhost:5173" = false →
       comprehensiveRun env [] =
         (compGotoTrace, Except.error (Err.navigationTimeout "http://localhost:5173")) ∧
       shots (comprehensiveRun env []).1 = []) ∧
    (env.gotoOk "http://localhost:5173" = false →
       verifyRun env [] =
         (verGotoTrace, Except.error (Err.navigationTimeout "http://localhost:5173")) ∧
       shots (verifyRun env []).1 = []) ∧
    (env.gotoOk "http://localhost:5173" = true →
     env.selectorAppears "h3:has-text(\x27Números Mais Sorteados (Top 10)\x27)" 60000 = true →
     env.clickOk "button:has-text(\x27Gerar Jogo\x27)" = false →
       verifyRun env [] =
         (verClickTrace,
          Except.error (Err.locatorNotFound "button:has-text(\x27Gerar Jogo\x27)")) ∧
       shots (verifyRun env []).1 = []) ∧
    (env.gotoOk "http://localhost:5173" = true →
     env.selectorAppears "h3:has-text(\x27Números Mais Sorteados (Top 10)\x27)" 60000 = true →
     env.clickOk "button:has-text(\x27Gerar Jogo\x27)" = true →
     env.selectorAppears "text=Seu jogo sugerido:" 10000 = true →
     env.selectorAppears "text=Probabilidade Histórica (Backtest)" 30000 = false →
       verifyRun env [] =
         (verBacktestWaitTrace,
          Except.error
            (Err.conditionTimeout "text=Probabilidade Histórica (Backtest)" 30000)) ∧
       shots (verifyRun env []).1 = []) := by
  refine ⟨?_, ?_, ?_, ?_, ?_, ?_, ?_, ?_, ?_, ?_, ?_, ?_, ?_, ?_, ?_⟩
  · intro h1 h2 h3
    rw [comp_fail_topwait env h1 h2]
    simp [shotTrace, maskErr, h3]
  · intro h1 h2 h3 h4
    rw [comp_fail_lastdraw env h1 h2 h3]
    simp [shotTrace, maskErr, h4]
  · intro h1 h2 h3
    rw [comp_fail_click env h1 h2]
    simp [shotTrace, maskErr, h3]
  · intro h1 h2 h3 h4
    rw [comp_fail_sugg env h1 h2 h3]
    simp [shotTrace, maskErr, h4]
  · intro h1 h2 h3 h4 h5
    rw [comp_fail_backtest env h1 h2 h3 h4]
    simp [shotTrace, maskErr, h5]
  · intro h1 h2 h3 h4 h5 h6
    rw [comp_fail_pontos env h1 h2 h3 h4 h5]
    simp [shotTrace, maskErr, h6]
  · intro h1 h2 h3 h4
    rw [comp_fail_fill env h1 h2 h3]
    simp [shotTrace, maskErr, h4]
  · intro h1 h2 h3 h4 h5
    rw [comp_fail_buscar env h1 h2 h3 h4]
    simp [shotTrace, maskErr, h5]
  · intro h1 h2 h3 h4 h5 h6
    rw [comp_fail_dezenas env h1 h2 h3 h4 h5]
    simp [shotTrace, maskErr, h6]
  · intro h1 h2 h3
    rw [ver_fail_topwait env h1 h2]
    simp [shotTrace, maskErr, h3]
  · intro h1 h2 h3 h4 h5
    rw [ver_fail_sugg env h1 h2 h3 h4]
    simp [shotTrace, maskErr, h5]
  · intro h1
    refine ⟨comp_fail_goto env h1, ?_⟩
    rw [comp_fail_goto env h1]
    decide
  · intro h1
    refine ⟨ver_fail_goto env h1, ?_⟩
    rw [ver_fail_goto env h1]
    decide
  · intro h1 h2 h3
    refine ⟨ver_fail_click env h1 h2 h3, ?_⟩
    rw [ver_fail_click env h1 h2 h3]
    decide
  · intro h1 h2 h3 h4 h5
    refine ⟨ver_fail_backtest env h1 h2 h3 h4 h5, ?_⟩
    rw [ver_fail_backtest env h1 h2 h3 h4 h5]
    decide

/-- Witness for C1: each of the fifteen first-failing-step cases instantiated
on a concrete environment singling out that step. -/
theorem claim1_witness :
    comprehensiveRun envLoadFail [] =
      (compTopWaitTrace ++
         [Event.printed "Failed to load initial data.",
          Event.screenshotWritten "verification/fail_initial_load.png"],
       Except.error
         (Err.conditionTimeout "h3:has-text(\x27Números Mais Sorteados (Top 10)\x27)" 60000)) ∧
    comprehensiveRun envUltimoFail [] =
      (compLastDrawWaitTrace ++
         [Event.printed "Failed to load initial data.",
          Event.screenshotWritten "verification/fail_initial_load.png"],
       Except.error (Err.conditionTimeout "h3:has-text(\x27Último Sorteio:\x27)" 10000)) ∧
    comprehensiveRun envClickGerarFail [] =
      (compClickTrace ++
         [Event.printed "Failed during Generate/Backtest verification.",
          Event.screenshotWritten "verification/fail_backtest.png"],
       Except.error (Err.locatorNotFound "button:has-text(\x27Gerar Jogo\x27)")) ∧
    comprehensiveRun envSuggTextFail [] =
      (compSuggWaitTrace ++
         [Event.printed "Failed during Generate/Backtest verification.",
          Event.screenshotWritten "verification/fail_backtest.png"],
       Except.error (Err.conditionTimeout "text=Seu jogo sugerido:" 10000)) ∧
    comprehensiveRun envBacktestTextFail [] =
      (compBacktestWaitTrace ++
         [Event.printed "Failed during Generate/Backtest verification.",
          Event.screenshotWritten "verification/fail_backtest.png"],
       Except.error (Err.conditionTimeout "text=Probabilidade Histórica (Backtest)" 10000)) ∧
    comprehensiveRun envPontosFail [] =
      (compPontosWaitTrace ++
         [Event.printed "Failed during Generate/Backtest verification.",
          Event.screenshotWritten "verification/fail_backtest.png"],
       Except.error (Err.conditionTimeout "text=11 Pontos" 5000)) ∧
    comprehensiveRun envFillFail [] =
      (compFillTrace ++
         [Event.printed "Failed during Search verification.",
          Event.screenshotWritten "verification/fail_search.png"],
       Except.error
         (Err.locatorNotFound "input[placeholder*=\x27Digite o número do jogo\x27]")) ∧
    comprehensiveRun envBuscarFail [] =
      (compBuscarClickTrace ++
         [Event.printed "Failed during Search verification.",
          Event.screenshotWritten "verification/fail_search.png"],
       Except.error (Err.locatorNotFound "button:has-text(\x27Buscar Jogo\x27)")) ∧
    comprehensiveRun envDezenasFail [] =
      (compDezenasWaitTrace ++
         [Event.printed "Failed during Search verification.",
          Event.screenshotWritten "verification/fail_search.png"],
       Except.error (Err.conditionTimeout "text=Dezenas do jogo 3000" 20000)) ∧
    verifyRun envLoadFail [] =
      (verTopWaitTrace ++
         [Event.printed "Timeout waiting for data to load. Taking screenshot...",
          Event.screenshotWritten "verification/error_loading.png"],
       Except.error
         (Err.conditionTimeout "h3:has-text(\x27Números Mais Sorteados (Top 10)\x27)" 60000)) ∧
    verifyRun envSuggFail [] =
      (verSuggWaitTrace ++
         [Event.printed "Timeout waiting for suggestion. Checking if error message appeared...",
          Event.checkedVisible ".bg-red-100"] ++
         bannerTrace envSuggFail ++
         [Event.printed "Taking screenshot...",
          Event.screenshotWritten "verification/error_suggestion_2.png"],
       Except.error (Err.conditionTimeout "text=Seu jogo sugerido:" 10000)) ∧
    (comprehensiveRun envGotoFail [] =
       (compGotoTrace, Except.error (Err.navigationTimeout "http://localhost:5173")) ∧
     shots (comprehensiveRun envGotoFail []).1 = []) ∧
    (verifyRun envGotoFail [] =
       (verGotoTrace, Except.error (Err.navigationTimeout "http://localhost:5173")) ∧
     shots (verifyRun envGotoFail []).1 = []) ∧
    (verifyRun envClickGerarFail [] =
       (verClickTrace,
        Except.error (Err.locatorNotFound "button:has-text(\x27Gerar Jogo\x27)")) ∧
     shots (verifyRun envClickGerarFail []).1 = []) ∧
    (verifyRun envBacktestHeaderFail [] =
       (verBacktestWaitTrace,
        Except.error (Err.conditionTimeout "text=Probabilidade Histórica (Backtest)" 30000)) ∧
     shots (verifyRun envBacktestHeaderFail []).1 = []) := by
  refine ⟨?_, ?_, ?_, ?_, ?_, ?_, ?_, ?_, ?_, ?_, ?_, ?_, ?_, ?_, ?_⟩
  · exact (claim1_step_failure_semantics envLoadFail).1 rfl rfl rfl
  · exact (claim1_step_failure_semantics envUltimoFail).2.1 rfl rfl rfl rfl
  · exact (claim1_step_failure_semantics envClickGerarFail).2.2.1 ⟨rfl, rfl, rfl⟩ rfl rfl
  · exact (claim1_step_failure_semantics envSuggTextFail).2.2.2.1 ⟨rfl, rfl, rfl⟩ rfl rfl rfl
  · exact (claim1_step_failure_semantics envBacktestTextFail).2.2.2.2.1 ⟨rfl, rfl, rfl⟩ rfl rfl rfl rfl
  · exact (claim1_step_failure_semantics envPontosFail).2.2.2.2.2.1 ⟨rfl, rfl, rfl⟩ rfl rfl rfl rfl rfl
  · exact (claim1_step_failure_semantics envFillFail).2.2.2.2.2.2.1 ⟨rfl, rfl, rfl⟩ ⟨rfl, rfl, rfl, rfl, rfl⟩ rfl rfl
  · exact (claim1_step_failure_semantics envBuscarFail).2.2.2.2.2.2.2.1 ⟨rfl, rfl, rfl⟩ ⟨rfl, rfl, rfl, rfl, rfl⟩
      rfl rfl rfl
  · exact (claim1_step_failure_semantics envDezenasFail).2.2.2.2.2.2.2.2.1 ⟨rfl, rfl, rfl⟩ ⟨rfl, rfl, rfl, rfl, rfl⟩
      rfl rfl rfl rfl
  · exact (claim1_step_failure_semantics envLoadFail).2.2.2.2.2.2.2.2.2.1 rfl rfl rfl
  · exact (claim1_step_failure_semantics envSuggFail).2.2.2.2.2.2.2.2.2.2.1 rfl rfl rfl rfl rfl
  · exact (claim1_step_failure_semantics envGotoFail).2.2.2.2.2.2.2.2.2.2.2.1 rfl
  · exact (claim1_step_failure_semantics envGotoFail).2.2.2.2.2.2.2.2.2.2.2.2.1 rfl
  · exact (claim1_step_failure_semantics envClickGerarFail).2.2.2.2.2.2.2.2.2.2.2.2.2.1 rfl rfl rfl
  · exact (claim1_step_failure_semantics envBacktestHeaderFail).2.2.2.2.2.2.2.2.2.2.2.2.2.2 rfl rfl rfl rfl rfl

/-- Claim C2, counterexample: the claim as stated is false.  In
comprehensive_verify.py, when the "11 Pontos" wait fails, `run` re-raises the
failure and exits without ever calling `browser.close()` — the failure exit
path closes the session zero times, not once. -/
theorem claim2_counterexample :
    (comprehensiveRun envPontosFail []).2 =
      Except.error (Err.conditionTimeout "text=11 Pontos" 5000) ∧
    closeCount (comprehensiveRun envPontosFail []).1 = 0 := ⟨rfl, rfl⟩

/-- Claim C2 (corrected): only verify_refactor.py closes the browser session
exactly once on every exit path (its try/finally), proved for every
environment.  comprehensive_verify.py and verify.py close the session exactly
once on their full-success paths, and on every failure exit path (any
environment whose run ends in an error) they propagate the failure without
closing the session at all. -/
theorem claim2_close_semantics (env : Env) :
    closeCount (verifyRefactorMain env []).1 = 1 ∧
    (comprehensiveEnvOk env → closeCount (comprehensiveRun env []).1 = 1) ∧
    (verifyEnvOk env → closeCount (verifyRun env []).1 = 1) ∧
    (∀ e, (comprehensiveRun env []).2 = Except.error e →
       closeCount (comprehensiveRun env []).1 = 0) ∧
    (∀ e, (verifyRun env []).2 = Except.error e → closeCount (verifyRun env []).1 = 0) := by
  refine ⟨?_, ?_, ?_, ?_, ?_⟩
  · cases hg : env.gotoOk "http://localhost:5173" <;>
    cases hh : env.selectorAppears "h1" 30000 <;>
    cases hf : env.fillOk "#gameNumberInput" "2500" <;>
    cases hs1 : env.screenshotOk "verification/verification_input.png" <;>
    cases hc : env.clickOk "get_by_role(button, name=Buscar Jogo)" <;>
    cases hs2 : env.screenshotOk "verification/verification_search.png" <;>
      simp [verifyRefactorMain, verifyGameSearch, bindDef, pyFinally, pyBind, pyPure,
            pageGoto, waitForSelector, pageFill, pageScreenshot, pageClick, waitForTimeout,
            browserClose, closeCount, isClose, hg, hh, hf, hs1, hc, hs2]
  · intro h
    rw [comprehensiveRun_ok env h []]
    rfl
  · intro h
    rw [verifyRun_ok env h []]
    rfl
  · exact fun e he => comprehensive_fail_no_close env e he
  · exact fun e he => verify_fail_no_close env e he

/-- Witness for C2: verify_refactor closes once even when navigation fails;
the other two scripts close once on full success and zero times on a failing
run. -/
theorem claim2_witness :
    closeCount (verifyRefactorMain envGotoFail []).1 = 1 ∧
    closeCount (comprehensiveRun envAllOk []).1 = 1 ∧
    closeCount (verifyRun envAllOk []).1 = 1 ∧
    closeCount (comprehensiveRun envPontosFail []).1 = 0 ∧
    closeCount (verifyRun envSuggFail []).1 = 0 :=
  ⟨(claim2_close_semantics envGotoFail).1,
   (claim2_close_semantics envAllOk).2.1
     ⟨⟨rfl, rfl, rfl⟩, ⟨rfl, rfl, rfl, rfl, rfl⟩, ⟨rfl, rfl, rfl, rfl⟩⟩,
   (claim2_close_semantics envAllOk).2.2.1 ⟨rfl, rfl, rfl, rfl, rfl, rfl⟩,
   (claim2_close_semantics envPontosFail).2.2.2.1
     (Err.conditionTimeout "text=11 Pontos" 5000) rfl,
   (claim2_close_semantics envSuggFail).2.2.2.2
     (Err.conditionTimeout "text=Seu jogo sugerido:" 10000) rfl⟩

/-- Claim C3, counterexample: the claim as stated is false.  In
comprehensive_verify.py, when the initial-load wait fails and the diagnostic
screenshot capture in the except block also fails, the exception propagated to
the caller is the screenshot capture failure, not the original condition
timeout — the capture failure masks the original step failure. -/
theorem claim3_counterexample :
    (comprehensiveRun envLoadShotFail []).2 =
      Except.error (Err.screenshotCaptureFailure "verification/fail_initial_load.png") ∧
    shots (comprehensiveRun envLoadShotFail []).1 = [] := ⟨rfl, rfl⟩

/-- Claim C3 (corrected): for every step failure that triggers one of the
five diagnostic screenshot captures of the two run scripts, the propagated
exception is `maskErr` of the handler's screenshot path and the original
failure: the original step failure exactly when the capture succeeds, and the
capture failure in its place when the capture itself fails — the capture
failure masks the original instead of being swallowed. -/
theorem claim3_capture_failure_masks (env : Env) :
    (env.gotoOk "http://localhost:5173" = true →
     env.selectorAppears "h3:has-text(\x27Números Mais Sorteados (Top 10)\x27)" 60000 = false →
       (comprehensiveRun env []).2 =
         Except.error (maskErr env "verification/fail_initial_load.png"
           (Err.conditionTimeout "h3:has-text(\x27Números Mais Sorteados (Top 10)\x27)" 60000))) ∧
    (env.gotoOk "http://localhost:5173" = true →
     env.selectorAppears "h3:has-text(\x27Números Mais Sorteados (Top 10)\x27)" 60000 = true →
     env.selectorAppears "h3:has-text(\x27Último Sorteio:\x27)" 10000 = false →
       (comprehensiveRun env []).2 =
         Except.error (maskErr env "verification/fail_initial_load.png"
           (Err.conditionTimeout "h3:has-text(\x27Último Sorteio:\x27)" 10000))) ∧
    (initialLoadOk env →
     env.clickOk "button:has-text(\x27Gerar Jogo\x27)" = false →
       (comprehensiveRun env []).2 =
         Except.error (maskErr env "verification/fail_backtest.png"
           (Err.locatorNotFound "button:has-text(\x27Gerar Jogo\x27)"))) ∧
    (initialLoadOk env →
     env.clickOk "button:has-text(\x27Gerar Jogo\x27)" = true →
     env.selectorAppears "text=Seu jogo sugerido:" 10000 = false →
       (comprehensiveRun env []).2 =
         Except.error (maskErr env "verification/fail_backtest.png"
           (Err.conditionTimeout "text=Seu jogo sugerido:" 10000))) ∧
    (initialLoadOk env →
     env.clickOk "button:has-text(\x27Gerar Jogo\x27)" = true →
     env.selectorAppears "text=Seu jogo sugerido:" 10000 = true →
     env.selectorAppears "text=Probabilidade Histórica (Backtest)" 10000 = false →
       (comprehensiveRun env []).2 =
         Except.error (maskErr env "verification/fail_backtest.png"
           (Err.conditionTimeout "text=Probabilidade Histórica (Backtest)" 10000))) ∧
    (initialLoadOk env →
     env.clickOk "button:has-text(\x27Gerar Jogo\x27)" = true →
     env.selectorAppears "text=Seu jogo sugerido:" 10000 = true →
     env.selectorAppears "text=Probabilidade Histórica (Backtest)" 10000 = true →
     env.selectorAppears "text=11 Pontos" 5000 = false →
       (comprehensiveRun env []).2 =
         Except.error (maskErr env "verification/fail_backtest.png"
           (Err.conditionTimeout "text=11 Pontos" 5000))) ∧
    (initialLoadOk env → backtestPhaseOk env →
     env.fillOk "input[placeholder*=\x27Digite o número do jogo\x27]" "3000" = false →
       (comprehensiveRun env []).2 =
         Except.error (maskErr env "verification/fail_search.png"
           (Err.locatorNotFound "input[placeholder*=\x27Digite o número do jogo\x27]"))) ∧
    (initialLoadOk env → backtestPhaseOk env →
     env.fillOk "input[placeholder*=\x27Digite o número do jogo\x27]" "3000" = true →
     env.clickOk "button:has-text(\x27Buscar Jogo\x27)" = false →
       (comprehensiveRun env []).2 =
         Except.error (maskErr env "verification/fail_search.png"
           (Err.locatorNotFound "button:has-text(\x27Buscar Jogo\x27)"))) ∧
    (initialLoadOk env → backtestPhaseOk env →
     env.fillOk "input[placeholder*=\x27Digite o número do jogo\x27]" "3000" = true →
     env.clickOk "button:has-text(\x27Buscar Jogo\x27)" = true →
     env.selectorAppears "text=Dezenas do jogo 3000" 20000 = false →
       (comprehensiveRun env []).2 =
         Except.error (maskErr env "verification/fail_search.png"
           (Err.conditionTimeout "text=Dezenas do jogo 3000" 20000))) ∧
    (env.gotoOk "http://localhost:5173" = true →
     env.selectorAppears "h3:has-text(\x27Números Mais Sorteados (Top 10)\x27)" 60000 = false →
       (verifyRun env []).2 =
         Except.error (maskErr env "verification/error_loading.png"
           (Err.conditionTimeout "h3:has-text(\x27Números Mais Sorteados (Top 10)\x27)" 60000))) ∧
    (env.gotoOk "http://localhost:5173" = true →
     env.selectorAppears "h3:has-text(\x27Números Mais Sorteados (Top 10)\x27)" 60000 = true →
     env.clickOk "button:has-text(\x27Gerar Jogo\x27)" = true →
     env.selectorAppears "text=Seu jogo sugerido:" 10000 = false →
       (verifyRun env []).2 =
         Except.error (maskErr env "verification/error_suggestion_2.png"
           (Err.conditionTimeout "text=Seu jogo sugerido:" 10000))) := by
  refine ⟨?_, ?_, ?_, ?_, ?_, ?_, ?_, ?_, ?_, ?_, ?_⟩
  · intro h1 h2
    rw [comp_fail_topwait env h1 h2]
  · intro h1 h2 h3
    rw [comp_fail_lastdraw env h1 h2 h3]
  · intro h1 h2
    rw [comp_fail_click env h1 h2]
  · intro h1 h2 h3
    rw [comp_fail_sugg env h1 h2 h3]
  · intro h1 h2 h3 h4
    rw [comp_fail_backtest env h1 h2 h3 h4]
  · intro h1 h2 h3 h4 h5
    rw [comp_fail_pontos env h1 h2 h3 h4 h5]
  · intro h1 h2 h3
    rw [comp_fail_fill env h1 h2 h3]
  · intro h1 h2 h3 h4
    rw [comp_fail_buscar env h1 h2 h3 h4]
  · intro h1 h2 h3 h4 h5
    rw [comp_fail_dezenas env h1 h2 h3 h4 h5]
  · intro h1 h2
    rw [ver_fail_topwait env h1 h2]
  · intro h1 h2 h3 h4
    rw [ver_fail_sugg env h1 h2 h3 h4]

/-- Witness for C3: every handler case instantiated concretely, including the
masking branch where every screenshot capture fails. -/
theorem claim3_witness :
    (comprehensiveRun envLoadShotFail []).2 =
      Except.error (maskErr envLoadShotFail "verification/fail_initial_load.png"
        (Err.conditionTimeout "h3:has-text(\x27Números Mais Sorteados (Top 10)\x27)" 60000)) ∧
    (comprehensiveRun envLoadFail []).2 =
      Except.error (maskErr envLoadFail "verification/fail_initial_load.png"
        (Err.conditionTimeout "h3:has-text(\x27Números Mais Sorteados (Top 10)\x27)" 60000)) ∧
    (comprehensiveRun envUltimoFail []).2 =
      Except.error (maskErr envUltimoFail "verification/fail_initial_load.png"
        (Err.conditionTimeout "h3:has-text(\x27Último Sorteio:\x27)" 10000)) ∧
    (comprehensiveRun envClickGerarFail []).2 =
      Except.error (maskErr envClickGerarFail "verification/fail_backtest.png"
        (Err.locatorNotFound "button:has-text(\x27Gerar Jogo\x27)")) ∧
    (comprehensiveRun envSuggTextFail []).2 =
      Except.error (maskErr envSuggTextFail "verification/fail_backtest.png"
        (Err.conditionTimeout "text=Seu jogo sugerido:" 10000)) ∧
    (comprehensiveRun envBacktestTextFail []).2 =
      Except.error (maskErr envBacktestTextFail "verification/fail_backtest.png"
        (Err.conditionTimeout "text=Probabilidade Histórica (Backtest)" 10000)) ∧
    (comprehensiveRun envPontosFail []).2 =
      Except.error (maskErr envPontosFail "verification/fail_backtest.png"
        (Err.conditionTimeout "text=11 Pontos" 5000)) ∧
    (comprehensiveRun envFillFail []).2 =
      Except.error (maskErr envFillFail "verification/fail_search.png"
        (Err.locatorNotFound "input[placeholder*=\x27Digite o número do jogo\x27]")) ∧
    (comprehensiveRun envBuscarFail []).2 =
      Except.error (maskErr envBuscarFail "verification/fail_search.png"
        (Err.locatorNotFound "button:has-text(\x27Buscar Jogo\x27)")) ∧
    (comprehensiveRun envDezenasFail []).2 =
      Except.error (maskErr envDezenasFail "verification/fail_search.png"
        (Err.conditionTimeout "text=Dezenas do jogo 3000" 20000)) ∧
    (verifyRun envLoadShotFail []).2 =
      Except.error (maskErr envLoadShotFail "verification/error_loading.png"
        (Err.conditionTimeout "h3:has-text(\x27Números Mais Sorteados (Top 10)\x27)" 60000)) ∧
    (verifyRun envSuggFail []).2 =
      Except.error (maskErr envSuggFail "verification/error_suggestion_2.png"
        (Err.conditionTimeout "text=Seu jogo sugerido:" 10000)) :=
  ⟨(claim3_capture_failure_masks envLoadShotFail).1 rfl rfl,
   (claim3_capture_failure_masks envLoadFail).1 rfl rfl,
   (claim3_capture_failure_masks envUltimoFail).2.1 rfl rfl rfl,
   (claim3_capture_failure_masks envClickGerarFail).2.2.1 ⟨rfl, rfl, rfl⟩ rfl,
   (claim3_capture_failure_masks envSuggTextFail).2.2.2.1 ⟨rfl, rfl, rfl⟩ rfl rfl,
   (claim3_capture_failure_masks envBacktestTextFail).2.2.2.2.1 ⟨rfl, rfl, rfl⟩ rfl rfl rfl,
   (claim3_capture_failure_masks envPontosFail).2.2.2.2.2.1 ⟨rfl, rfl, rfl⟩ rfl rfl rfl rfl,
   (claim3_capture_failure_masks envFillFail).2.2.2.2.2.2.1 ⟨rfl, rfl, rfl⟩ ⟨rfl, rfl, rfl, rfl, rfl⟩ rfl,
   (claim3_capture_failure_masks envBuscarFail).2.2.2.2.2.2.2.1 ⟨rfl, rfl, rfl⟩ ⟨rfl, rfl, rfl, rfl, rfl⟩ rfl rfl,
   (claim3_capture_failure_masks envDezenasFail).2.2.2.2.2.2.2.2.1 ⟨rfl, rfl, rfl⟩ ⟨rfl, rfl, rfl, rfl, rfl⟩
     rfl rfl rfl,
   (claim3_capture_failure_masks envLoadShotFail).2.2.2.2.2.2.2.2.2.1 rfl rfl,
   (claim3_capture_failure_masks envSuggFail).2.2.2.2.2.2.2.2.2.2 rfl rfl rfl rfl⟩

/-- Claim C4, counterexample: the claim as stated is false.  In
comprehensive_verify.py the initial `page.goto` is outside every try block:
when navigation times out (the first step to exceed its timeout), the run
terminates with `NavigationTimeout` — matching the step's kind and executing
no later step — but no failure screenshot is written. -/
theorem claim4_counterexample :
    comprehensiveRun envGotoFail [] =
      ([Event.printed "Navigating to app...", Event.navigated "http://localhost:5173"],
       Except.error (Err.navigationTimeout "http://localhost:5173")) ∧
    shots (comprehensiveRun envGotoFail []).1 = [] := ⟨rfl, rfl⟩

/-- Claim C4 (corrected): for every step k of comprehensive_verify.py that is
the first to exceed its timeout or fail to resolve its locator, no step after
k (steps of later scenarios and the final browser close included) is ever
executed and the raised failure's kind matches the failing step's kind; a
failure screenshot is written when k lies inside one of the guarded phases,
while a failure of the unguarded initial navigate step aborts the run with no
screenshot written. -/
theorem claim4_fail_fast_guarded (env : Env) :
    (env.gotoOk "http://localhost:5173" = false →
       (comprehensiveRun env []).2 =
         Except.error (Err.navigationTimeout "http://localhost:5173") ∧
       shots (comprehensiveRun env []).1 = [] ∧
       Event.clicked "button:has-text(\x27Gerar Jogo\x27)" ∉ (comprehensiveRun env []).1 ∧
       Event.filled "input[placeholder*=\x27Digite o número do jogo\x27]" "3000" ∉
         (comprehensiveRun env []).1 ∧
       Event.browserClosed ∉ (comprehensiveRun env []).1) ∧
    (env.gotoOk "http://localhost:5173" = true →
     env.selectorAppears "h3:has-text(\x27Números Mais Sorteados (Top 10)\x27)" 60000 = false →
     env.screenshotOk "verification/fail_initial_load.png" = true →
       (comprehensiveRun env []).2 =
         Except.error
           (Err.conditionTimeout "h3:has-text(\x27Números Mais Sorteados (Top 10)\x27)" 60000) ∧
       shots (comprehensiveRun env []).1 = ["verification/fail_initial_load.png"] ∧
       Event.waitedFor "h3:has-text(\x27Último Sorteio:\x27)" 10000 ∉ (comprehensiveRun env []).1 ∧
       Event.filled "input[placeholder*=\x27Digite o número do jogo\x27]" "3000" ∉
         (comprehensiveRun env []).1 ∧
       Event.browserClosed ∉ (comprehensiveRun env []).1) ∧
    (env.gotoOk "http://localhost:5173" = true →
     env.selectorAppears "h3:has-text(\x27Números Mais Sorteados (Top 10)\x27)" 60000 = true →
     env.selectorAppears "h3:has-text(\x27Último Sorteio:\x27)" 10000 = false →
     env.screenshotOk "verification/fail_initial_load.png" = true →
       (comprehensiveRun env []).2 =
         Except.error (Err.conditionTimeout "h3:has-text(\x27Último Sorteio:\x27)" 10000) ∧
       shots (comprehensiveRun env []).1 = ["verification/fail_initial_load.png"] ∧
       Event.clicked "button:has-text(\x27Gerar Jogo\x27)" ∉ (comprehensiveRun env []).1 ∧
       Event.filled "input[placeholder*=\x27Digite o número do jogo\x27]" "3000" ∉
         (comprehensiveRun env []).1 ∧
       Event.browserClosed ∉ (comprehensiveRun env []).1) ∧
    (initialLoadOk env →
     env.clickOk "button:has-text(\x27Gerar Jogo\x27)" = false →
     env.screenshotOk "verification/fail_backtest.png" = true →
       (comprehensiveRun env []).2 =
         Except.error (Err.locatorNotFound "button:has-text(\x27Gerar Jogo\x27)") ∧
       shots (comprehensiveRun env []).1 = ["verification/fail_backtest.png"] ∧
       Event.waitedFor "text=Seu jogo sugerido:" 10000 ∉ (comprehensiveRun env []).1 ∧
       Event.filled "input[placeholder*=\x27Digite o número do jogo\x27]" "3000" ∉
         (comprehensiveRun env []).1 ∧
       Event.browserClosed ∉ (comprehensiveRun env []).1) ∧
    (initialLoadOk env →
     env.clickOk "button:has-text(\x27Gerar Jogo\x27)" = true →
     env.selectorAppears "text=Seu jogo sugerido:" 10000 = false →
     env.screenshotOk "verification/fail_backtest.png" = true →
       (comprehensiveRun env []).2 =
         Except.error (Err.conditionTimeout "text=Seu jogo sugerido:" 10000) ∧
       shots (comprehensiveRun env []).1 = ["verification/fail_backtest.png"] ∧
       Event.waitedFor "text=Probabilidade Histórica (Backtest)" 10000 ∉
         (comprehensiveRun env []).1 ∧
       Event.filled "input[placeholder*=\x27Digite o número do jogo\x27]" "3000" ∉
         (comprehensiveRun env []).1 ∧
       Event.browserClosed ∉ (comprehensiveRun env []).1) ∧
    (initialLoadOk env →
     env.clickOk "button:has-text(\x27Gerar Jogo\x27)" = true →
     env.selectorAppears "text=Seu jogo sugerido:" 10000 = true →
     env.selectorAppears "text=Probabilidade Histórica (Backtest)" 10000 = false →
     env.screenshotOk "verification/fail_backtest.png" = true →
       (comprehensiveRun env []).2 =
         Except.error (Err.conditionTimeout "text=Probabilidade Histórica (Backtest)" 10000) ∧
       shots (comprehensiveRun env []).1 = ["verification/fail_backtest.png"] ∧
       Event.waitedFor "text=11 Pontos" 5000 ∉ (comprehensiveRun env []).1 ∧
       Event.filled "input[placeholder*=\x27Digite o número do jogo\x27]" "3000" ∉
         (comprehensiveRun env []).1 ∧
       Event.browserClosed ∉ (comprehensiveRun env []).1) ∧
    (initialLoadOk env →
     env.clickOk "button:has-text(\x27Gerar Jogo\x27)" = true →
     env.selectorAppears "text=Seu jogo sugerido:" 10000 = true →
     env.selectorAppears "text=Probabilidade Histórica (Backtest)" 10000 = true →
     env.selectorAppears "text=11 Pontos" 5000 = false →
     env.screenshotOk "verification/fail_backtest.png" = true →
       (comprehensiveRun env []).2 =
         Except.error (Err.conditionTimeout "text=11 Pontos" 5000) ∧
       shots (comprehensiveRun env []).1 = ["verification/fail_backtest.png"] ∧
       Event.filled "input[placeholder*=\x27Digite o número do jogo\x27]" "3000" ∉
         (comprehensiveRun env []).1 ∧
       Event.clicked "button:has-text(\x27Buscar Jogo\x27)" ∉ (comprehensiveRun env []).1 ∧
       Event.browserClosed ∉ (comprehensiveRun env []).1) ∧
    (initialLoadOk env → backtestPhaseOk env →
     env.fillOk "input[placeholder*=\x27Digite o número do jogo\x27]" "3000" = false →
     env.screenshotOk "verification/fail_search.png" = true →
       (comprehensiveRun env []).2 =
         Except.error
           (Err.locatorNotFound "input[placeholder*=\x27Digite o número do jogo\x27]") ∧
       shots (comprehensiveRun env []).1 =
         ["verification/success_backtest.png", "verification/fail_search.png"] ∧
       Event.clicked "button:has-text(\x27Buscar Jogo\x27)" ∉ (comprehensiveRun env []).1 ∧
       Event.waitedFor "text=Dezenas do jogo 3000" 20000 ∉ (comprehensiveRun env []).1 ∧
       Event.browserClosed ∉ (comprehensiveRun env []).1) ∧
    (initialLoadOk env → backtestPhaseOk env →
     env.fillOk "input[placeholder*=\x27Digite o número do jogo\x27]" "3000" = true →
     env.clickOk "button:has-text(\x27Buscar Jogo\x27)" = false →
     env.screenshotOk "verification/fail_search.png" = true →
       (comprehensiveRun env []).2 =
         Except.error (Err.locatorNotFound "button:has-text(\x27Buscar Jogo\x27)") ∧
       shots (comprehensiveRun env []).1 =
         ["verification/success_backtest.png", "verification/fail_search.png"] ∧
       Event.waitedFor "text=Dezenas do jogo 3000" 20000 ∉ (comprehensiveRun env []).1 ∧
       Event.browserClosed ∉ (comprehensiveRun env []).1) ∧
    (initialLoadOk env → backtestPhaseOk env →
     env.fillOk "input[placeholder*=\x27Digite o número do jogo\x27]" "3000" = true →
     env.clickOk "button:has-text(\x27Buscar Jogo\x27)" = true →
     env.selectorAppears "text=Dezenas do jogo 3000" 20000 = false →
     env.screenshotOk "verification/fail_search.png" = true →
       (comprehensiveRun env []).2 =
         Except.error (Err.conditionTimeout "text=Dezenas do jogo 3000" 20000) ∧
       shots (comprehensiveRun env []).1 =
         ["verification/success_backtest.png", "verification/fail_search.png"] ∧
       Event.browserClosed ∉ (comprehensiveRun env []).1) := by
  refine ⟨?_, ?_, ?_, ?_, ?_, ?_, ?_, ?_, ?_, ?_⟩
  · intro h1
    rw [comp_fail_goto env h1]
    refine ⟨rfl, by decide, by decide, by decide, by decide⟩
  · intro h1 h2 h3
    rw [comp_fail_topwait env h1 h2]
    simp only [shotTrace, maskErr, h3, if_true]
    refine ⟨by decide, by decide, by decide, by decide, by decide⟩
  · intro h1 h2 h3 h4
    rw [comp_fail_lastdraw env h1 h2 h3]
    simp only [shotTrace, maskErr, h4, if_true]
    refine ⟨by decide, by decide, by decide, by decide, by decide⟩
  · intro h1 h2 h3
    rw [comp_fail_click env h1 h2]
    simp only [shotTrace, maskErr, h3, if_true]
    refine ⟨by decide, by decide, by decide, by decide, by decide⟩
  · intro h1 h2 h3 h4
    rw [comp_fail_sugg env h1 h2 h3]
    simp only [shotTrace, maskErr, h4, if_true]
    refine ⟨by decide, by decide, by decide, by decide, by decide⟩
  · intro h1 h2 h3 h4 h5
    rw [comp_fail_backtest env h1 h2 h3 h4]
    simp only [shotTrace, maskErr, h5, if_true]
    refine ⟨by decide, by decide, by decide, by decide, by decide⟩
  · intro h1 h2 h3 h4 h5 h6
    rw [comp_fail_pontos env h1 h2 h3 h4 h5]
    simp only [shotTrace, maskErr, h6, if_true]
    refine ⟨by decide, by decide, by decide, by decide, by decide⟩
  · intro h1 h2 h3 h4
    rw [comp_fail_fill env h1 h2 h3]
    simp only [shotTrace, maskErr, h4, if_true]
    refine ⟨by decide, by decide, by decide, by decide, by decide⟩
  · intro h1 h2 h3 h4 h5
    rw [comp_fail_buscar env h1 h2 h3 h4]
    simp only [shotTrace, maskErr, h5, if_true]
    refine ⟨by decide, by decide, by decide, by decide⟩
  · intro h1 h2 h3 h4 h5 h6
    rw [comp_fail_dezenas env h1 h2 h3 h4 h5]
    simp only [shotTrace, maskErr, h6, if_true]
    refine ⟨by decide, by decide, by decide⟩

/-- Witness for C4: all ten first-failing-step cases instantiated on concrete
environments singling out each step. -/
theorem claim4_witness :
    ((comprehensiveRun envGotoFail []).2 =
       Except.error (Err.navigationTimeout "http://localhost:5173") ∧
     shots (comprehensiveRun envGotoFail []).1 = [] ∧
     Event.clicked "button:has-text(\x27Gerar Jogo\x27)" ∉ (comprehensiveRun envGotoFail []).1 ∧
     Event.filled "input[placeholder*=\x27Digite o número do jogo\x27]" "3000" ∉
       (comprehensiveRun envGotoFail []).1 ∧
     Event.browserClosed ∉ (comprehensiveRun envGotoFail []).1) ∧
    ((comprehensiveRun envLoadFail []).2 =
       Except.error
         (Err.conditionTimeout "h3:has-text(\x27Números Mais Sorteados (Top 10)\x27)" 60000) ∧
     shots (comprehensiveRun envLoadFail []).1 = ["verification/fail_initial_load.png"] ∧
     Event.waitedFor "h3:has-text(\x27Último Sorteio:\x27)" 10000 ∉
       (comprehensiveRun envLoadFail []).1 ∧
     Event.filled "input[placeholder*=\x27Digite o número do jogo\x27]" "3000" ∉
       (comprehensiveRun envLoadFail []).1 ∧
     Event.browserClosed ∉ (comprehensiveRun envLoadFail []).1) ∧
    ((comprehensiveRun envUltimoFail []).2 =
       Except.error (Err.conditionTimeout "h3:has-text(\x27Último Sorteio:\x27)" 10000) ∧
     shots (comprehensiveRun envUltimoFail []).1 = ["verification/fail_initial_load.png"] ∧
     Event.clicked "button:has-text(\x27Gerar Jogo\x27)" ∉ (comprehensiveRun envUltimoFail []).1 ∧
     Event.filled "input[placeholder*=\x27Digite o número do jogo\x27]" "3000" ∉
       (comprehensiveRun envUltimoFail []).1 ∧
     Event.browserClosed ∉ (comprehensiveRun envUltimoFail []).1) ∧
    ((comprehensiveRun envClickGerarFail []).2 =
       Except.error (Err.locatorNotFound "button:has-text(\x27Gerar Jogo\x27)") ∧
     shots (comprehensiveRun envClickGerarFail []).1 = ["verification/fail_backtest.png"] ∧
     Event.waitedFor "text=Seu jogo sugerido:" 10000 ∉ (comprehensiveRun envClickGerarFail []).1 ∧
     Event.filled "input[placeholder*=\x27Digite o número do jogo\x27]" "3000" ∉
       (comprehensiveRun envClickGerarFail []).1 ∧
     Event.browserClosed ∉ (comprehensiveRun envClickGerarFail []).1) ∧
    ((comprehensiveRun envSuggTextFail []).2 =
       Except.error (Err.conditionTimeout "text=Seu jogo sugerido:" 10000) ∧
     shots (comprehensiveRun envSuggTextFail []).1 = ["verification/fail_backtest.png"] ∧
     Event.waitedFor "text=Probabilidade Histórica (Backtest)" 10000 ∉
       (comprehensiveRun envSuggTextFail []).1 ∧
     Event.filled "input[placeholder*=\x27Digite o número do jogo\x27]" "3000" ∉
       (comprehensiveRun envSuggTextFail []).1 ∧
     Event.browserClosed ∉ (comprehensiveRun envSuggTextFail []).1) ∧
    ((comprehensiveRun envBacktestTextFail []).2 =
       Except.error (Err.conditionTimeout "text=Probabilidade Histórica (Backtest)" 10000) ∧
     shots (comprehensiveRun envBacktestTextFail []).1 = ["verification/fail_backtest.png"] ∧
     Event.waitedFor "text=11 Pontos" 5000 ∉ (comprehensiveRun envBacktestTextFail []).1 ∧
     Event.filled "input[placeholder*=\x27Digite o número do jogo\x27]" "3000" ∉
       (comprehensiveRun envBacktestTextFail []).1 ∧
     Event.browserClosed ∉ (comprehensiveRun envBacktestTextFail []).1) ∧
    ((comprehensiveRun envPontosFail []).2 =
       Except.error (Err.conditionTimeout "text=11 Pontos" 5000) ∧
     shots (comprehensiveRun envPontosFail []).1 = ["verification/fail_backtest.png"] ∧
     Event.filled "input[placeholder*=\x27Digite o número do jogo\x27]" "3000" ∉
       (comprehensiveRun envPontosFail []).1 ∧
     Event.clicked "button:has-text(\x27Buscar Jogo\x27)" ∉ (comprehensiveRun envPontosFail []).1 ∧
     Event.browserClosed ∉ (comprehensiveRun envPontosFail []).1) ∧
    ((comprehensiveRun envFillFail []).2 =
       Except.error
         (Err.locatorNotFound "input[placeholder*=\x27Digite o número do jogo\x27]") ∧
     shots (comprehensiveRun envFillFail []).1 =
       ["verification/success_backtest.png", "verification/fail_search.png"] ∧
     Event.clicked "button:has-text(\x27Buscar Jogo\x27)" ∉ (comprehensiveRun envFillFail []).1 ∧
     Event.waitedFor "text=Dezenas do jogo 3000" 20000 ∉ (comprehensiveRun envFillFail []).1 ∧
     Event.browserClosed ∉ (comprehensiveRun envFillFail []).1) ∧
    ((comprehensiveRun envBuscarFail []).2 =
       Except.error (Err.locatorNotFound "button:has-text(\x27Buscar Jogo\x27)") ∧
     shots (comprehensiveRun envBuscarFail []).1 =
       ["verification/success_backtest.png", "verification/fail_search.png"] ∧
     Event.waitedFor "text=Dezenas do jogo 3000" 20000 ∉ (comprehensiveRun envBuscarFail []).1 ∧
     Event.browserClosed ∉ (comprehensiveRun envBuscarFail []).1) ∧
    ((comprehensiveRun envDezenasFail []).2 =
       Except.error (Err.conditionTimeout "text=Dezenas do jogo 3000" 20000) ∧
     shots (comprehensiveRun envDezenasFail []).1 =
       ["verification/success_backtest.png", "verification/fail_search.png"] ∧
     Event.browserClosed ∉ (comprehensiveRun envDezenasFail []).1) := by
  refine ⟨?_, ?_, ?_, ?_, ?_, ?_, ?_, ?_, ?_, ?_⟩
  · exact (claim4_fail_fast_guarded envGotoFail).1 rfl
  · exact (claim4_fail_fast_guarded envLoadFail).2.1 rfl rfl rfl
  · exact (claim4_fail_fast_guarded envUltimoFail).2.2.1 rfl rfl rfl rfl
  · exact (claim4_fail_fast_guarded envClickGerarFail).2.2.2.1 ⟨rfl, rfl, rfl⟩ rfl rfl
  · exact (claim4_fail_fast_guarded envSuggTextFail).2.2.2.2.1 ⟨rfl, rfl, rfl⟩ rfl rfl rfl
  · exact (claim4_fail_fast_guarded envBacktestTextFail).2.2.2.2.2.1 ⟨rfl, rfl, rfl⟩ rfl rfl rfl rfl
  · exact (claim4_fail_fast_guarded envPontosFail).2.2.2.2.2.2.1 ⟨rfl, rfl, rfl⟩ rfl rfl rfl rfl rfl
  · exact (claim4_fail_fast_guarded envFillFail).2.2.2.2.2.2.2.1 ⟨rfl, rfl, rfl⟩ ⟨rfl, rfl, rfl, rfl, rfl⟩ rfl rfl
  · exact (claim4_fail_fast_guarded envBuscarFail).2.2.2.2.2.2.2.2.1 ⟨rfl, rfl, rfl⟩ ⟨rfl, rfl, rfl, rfl, rfl⟩
      rfl rfl rfl
  · exact (claim4_fail_fast_guarded envDezenasFail).2.2.2.2.2.2.2.2.2 ⟨rfl, rfl, rfl⟩ ⟨rfl, rfl, rfl, rfl, rfl⟩
      rfl rfl rfl rfl

/-- Claim C5 (confirmed): when every constituent step's condition is satisfied
within its timeout, comprehensive_verify.py returns normally and writes
exactly the two designated success screenshots, in order, and no failure
screenshot. -/
theorem claim5_full_success_exact_screenshots (env : Env) (h : comprehensiveEnvOk env) :
    (comprehensiveRun env []).2 = Except.ok () ∧
    shots (comprehensiveRun env []).1 =
      ["verification/success_backtest.png", "verification/success_search.png"] := by
  rw [comprehensiveRun_ok env h []]
  exact ⟨rfl, rfl⟩

/-- Witness for C5: the statement instantiated on the all-success
environment. -/
theorem claim5_witness :
    (comprehensiveRun envAllOk []).2 = Except.ok () ∧
    shots (comprehensiveRun envAllOk []).1 =
      ["verification/success_backtest.png", "verification/success_search.png"] :=
  claim5_full_success_exact_screenshots envAllOk
    ⟨⟨rfl, rfl, rfl⟩, ⟨rfl, rfl, rfl, rfl, rfl⟩, ⟨rfl, rfl, rfl, rfl⟩⟩

/-- Claim C6 (confirmed): in the generate-and-backtest scenario of
comprehensive_verify.py, after initial load the run clicks the Generate Game
button, then waits for the suggested-game text (10 s), the backtest text
(10 s) and the "11 Pontos" text (5 s), in that order (the full-success trace
is pinned and the success screenshot is written); and if the "11 Pontos"
condition times out, a failure screenshot distinct from the success screenshot
is the only one written and a condition timeout naming that condition is
raised. -/
theorem claim6_generate_backtest (env : Env) :
    (comprehensiveEnvOk env →
       (comprehensiveRun env []).2 = Except.ok () ∧
       (comprehensiveRun env []).1 = comprehensiveSuccessTrace ∧
       "verification/success_backtest.png" ∈ shots (comprehensiveRun env []).1) ∧
    (initialLoadOk env →
     env.clickOk "button:has-text(\x27Gerar Jogo\x27)" = true →
     env.selectorAppears "text=Seu jogo sugerido:" 10000 = true →
     env.selectorAppears "text=Probabilidade Histórica (Backtest)" 10000 = true →
     env.selectorAppears "text=11 Pontos" 5000 = false →
     env.screenshotOk "verification/fail_backtest.png" = true →
       (comprehensiveRun env []).2 = Except.error (Err.conditionTimeout "text=11 Pontos" 5000) ∧
       shots (comprehensiveRun env []).1 = ["verification/fail_backtest.png"] ∧
       "verification/fail_backtest.png" ≠ "verification/success_backtest.png") := by
  constructor
  · intro h
    rw [comprehensiveRun_ok env h []]
    exact ⟨rfl, rfl, by decide⟩
  · rintro ⟨h1, h2, h3⟩ h4 h5 h6 h7 h8
    have ht : comprehensiveRun env [] =
        (backtestPontosFailTrace, Except.error (Err.conditionTimeout "text=11 Pontos" 5000)) := by
      simp [comprehensiveRun, bindDef, pyTry, pyBind, pyPure, pyThrow, pyPrint, pageGoto,
            waitForSelector, pageClick, pageFill, pageScreenshot, browserClose,
            h1, h2, h3, h4, h5, h6, h7, h8, backtestPontosFailTrace]
    rw [ht]
    exact ⟨rfl, rfl, by decide⟩

/-- Witness for C6: the success part on the all-success environment and the
failure part on the environment where only "11 Pontos" never appears. -/
theorem claim6_witness :
    ((comprehensiveRun envAllOk []).2 = Except.ok () ∧
       (comprehensiveRun envAllOk []).1 = comprehensiveSuccessTrace ∧
       "verification/success_backtest.png" ∈ shots (comprehensiveRun envAllOk []).1) ∧
    ((comprehensiveRun envPontosFail []).2 =
        Except.error (Err.conditionTimeout "text=11 Pontos" 5000) ∧
      shots (comprehensiveRun envPontosFail []).1 = ["verification/fail_backtest.png"] ∧
      "verification/fail_backtest.png" ≠ "verification/success_backtest.png") :=
  ⟨(claim6_generate_backtest envAllOk).1
      ⟨⟨rfl, rfl, rfl⟩, ⟨rfl, rfl, rfl, rfl, rfl⟩, ⟨rfl, rfl, rfl, rfl⟩⟩,
   (claim6_generate_backtest envPontosFail).2
      ⟨rfl, rfl, rfl⟩ rfl rfl rfl rfl rfl⟩

/-- Claim C7 (confirmed): in the search-by-number scenario of
comprehensive_verify.py, the run fills the game-number input with "3000",
clicks the Search Game button and waits for the "Dezenas do jogo 3000" text
with a 20 s timeout, in that order (the full-success trace is pinned and the
dedicated success screenshot is written); and when that text never appears
(a non-existent game number) the step raises a condition timeout bounded by
20000 ms instead of hanging. -/
theorem claim7_search_scenario (env : Env) :
    (comprehensiveEnvOk env →
       (comprehensiveRun env []).2 = Except.ok () ∧
       (comprehensiveRun env []).1 = comprehensiveSuccessTrace ∧
       "verification/success_search.png" ∈ shots (comprehensiveRun env []).1) ∧
    (initialLoadOk env → backtestPhaseOk env →
     env.fillOk "input[placeholder*=\x27Digite o número do jogo\x27]" "3000" = true →
     env.clickOk "button:has-text(\x27Buscar Jogo\x27)" = true →
     env.selectorAppears "text=Dezenas do jogo 3000" 20000 = false →
     env.screenshotOk "verification/fail_search.png" = true →
       (comprehensiveRun env []).2 =
         Except.error (Err.conditionTimeout "text=Dezenas do jogo 3000" 20000)) := by
  constructor
  · intro h
    rw [comprehensiveRun_ok env h []]
    exact ⟨rfl, rfl, by decide⟩
  · intro h1 h2 h3 h4 h5 h6
    rw [searchDezenasFail_run env h1 h2 h3 h4 h5 h6]

/-- Witness for C7: the success part on the all-success environment and the
failure part on the environment where the search result never appears. -/
theorem claim7_witness :
    ((comprehensiveRun envAllOk []).2 = Except.ok () ∧
       (comprehensiveRun envAllOk []).1 = comprehensiveSuccessTrace ∧
       "verification/success_search.png" ∈ shots (comprehensiveRun envAllOk []).1) ∧
    (comprehensiveRun envDezenasFail []).2 =
        Except.error (Err.conditionTimeout "text=Dezenas do jogo 3000" 20000) :=
  ⟨(claim7_search_scenario envAllOk).1
      ⟨⟨rfl, rfl, rfl⟩, ⟨rfl, rfl, rfl, rfl, rfl⟩, ⟨rfl, rfl, rfl, rfl⟩⟩,
   (claim7_search_scenario envDezenasFail).2
      ⟨rfl, rfl, rfl⟩ ⟨rfl, rfl, rfl, rfl, rfl⟩ rfl rfl rfl rfl⟩

/-- Claim C8 (confirmed): running the fully-successful comprehensive scenario
a second time against the unchanged application produces exactly the same
sequence of effects and the same outcome — the second run merely appends an
identical copy of the first run's trace, whatever state (trace, artifact
directory) the first run left behind — and replaying the same screenshot
writes leaves the artifact directory unchanged.  The runner reads no state
carried over from the previous invocation. -/
theorem claim8_idempotent_runs (env : Env) (fs0 : List String) (h : comprehensiveEnvOk env) :
    comprehensiveRun env ((comprehensiveRun env []).1) =
      ((comprehensiveRun env []).1 ++ (comprehensiveRun env []).1,
       (comprehensiveRun env []).2) ∧
    applyShots (applyShots fs0 (shots (comprehensiveRun env []).1))
        (shots (comprehensiveRun env []).1) =
      applyShots fs0 (shots (comprehensiveRun env []).1) := by
  constructor
  · simp [comprehensiveRun_ok env h]
  · exact applyShots_idem _ _

/-- Witness for C8: the statement instantiated on the all-success environment
and an empty initial artifact directory. -/
theorem claim8_witness :
    (comprehensiveRun envAllOk ((comprehensiveRun envAllOk []).1) =
      ((comprehensiveRun envAllOk []).1 ++ (comprehensiveRun envAllOk []).1,
       (comprehensiveRun envAllOk []).2) ∧
    applyShots (applyShots [] (shots (comprehensiveRun envAllOk []).1))
        (shots (comprehensiveRun envAllOk []).1) =
      applyShots [] (shots (comprehensiveRun envAllOk []).1)) :=
  claim8_idempotent_runs envAllOk []
    ⟨⟨rfl, rfl, rfl⟩, ⟨rfl, rfl, rfl, rfl, rfl⟩, ⟨rfl, rfl, rfl, rfl⟩⟩

/-- Claim C9 (confirmed): whichever step of the later search scenario fails
(the fill, the Search Game click, or the search-result wait), the run's
screenshot writes are exactly the earlier backtest success screenshot
followed by the search failure screenshot, and the earlier success screenshot
remains present in the artifact directory after the run — the later
scenario's failure handling neither removes nor rewrites it. -/
theorem claim9_earlier_success_shots_persist (env : Env) (fs0 : List String) :
    (initialLoadOk env → backtestPhaseOk env →
     env.fillOk "input[placeholder*=\x27Digite o número do jogo\x27]" "3000" = false →
     env.screenshotOk "verification/fail_search.png" = true →
       shots (comprehensiveRun env []).1 =
         ["verification/success_backtest.png", "verification/fail_search.png"] ∧
       "verification/success_backtest.png" ∈
         applyShots fs0 (shots (comprehensiveRun env []).1) ∧
       (comprehensiveRun env []).2 =
         Except.error
           (Err.locatorNotFound "input[placeholder*=\x27Digite o número do jogo\x27]")) ∧
    (initialLoadOk env → backtestPhaseOk env →
     env.fillOk "input[placeholder*=\x27Digite o número do jogo\x27]" "3000" = true →
     env.clickOk "button:has-text(\x27Buscar Jogo\x27)" = false →
     env.screenshotOk "verification/fail_search.png" = true →
       shots (comprehensiveRun env []).1 =
         ["verification/success_backtest.png", "verification/fail_search.png"] ∧
       "verification/success_backtest.png" ∈
         applyShots fs0 (shots (comprehensiveRun env []).1) ∧
       (comprehensiveRun env []).2 =
         Except.error (Err.locatorNotFound "button:has-text(\x27Buscar Jogo\x27)")) ∧
    (initialLoadOk env → backtestPhaseOk env →
     env.fillOk "input[placeholder*=\x27Digite o número do jogo\x27]" "3000" = true →
     env.clickOk "button:has-text(\x27Buscar Jogo\x27)" = true →
     env.selectorAppears "text=Dezenas do jogo 3000" 20000 = false →
     env.screenshotOk "verification/fail_search.png" = true →
       shots (comprehensiveRun env []).1 =
         ["verification/success_backtest.png", "verification/fail_search.png"] ∧
       "verification/success_backtest.png" ∈
         applyShots fs0 (shots (comprehensiveRun env []).1) ∧
       (comprehensiveRun env []).2 =
         Except.error (Err.conditionTimeout "text=Dezenas do jogo 3000" 20000)) := by
  refine ⟨?_, ?_, ?_⟩
  · intro h1 h2 h3 h4
    rw [comp_fail_fill env h1 h2 h3]
    simp only [shotTrace, maskErr, h4, if_true]
    refine ⟨by decide, ?_, by decide⟩
    exact mem_applyShots_of_mem_shots _ fs0 _ (by decide)
  · intro h1 h2 h3 h4 h5
    rw [comp_fail_buscar env h1 h2 h3 h4]
    simp only [shotTrace, maskErr, h5, if_true]
    refine ⟨by decide, ?_, by decide⟩
    exact mem_applyShots_of_mem_shots _ fs0 _ (by decide)
  · intro h1 h2 h3 h4 h5 h6
    rw [comp_fail_dezenas env h1 h2 h3 h4 h5]
    simp only [shotTrace, maskErr, h6, if_true]
    refine ⟨by decide, ?_, by decide⟩
    exact mem_applyShots_of_mem_shots _ fs0 _ (by decide)

/-- Witness for C9: the three search-scenario failure cases instantiated
concretely with an empty initial artifact directory. -/
theorem claim9_witness :
    (shots (comprehensiveRun envFillFail []).1 =
       ["verification/success_backtest.png", "verification/fail_search.png"] ∧
     "verification/success_backtest.png" ∈
       applyShots [] (shots (comprehensiveRun envFillFail []).1) ∧
     (comprehensiveRun envFillFail []).2 =
       Except.error
         (Err.locatorNotFound "input[placeholder*=\x27Digite o número do jogo\x27]")) ∧
    (shots (comprehensiveRun envBuscarFail []).1 =
       ["verification/success_backtest.png", "verification/fail_search.png"] ∧
     "verification/success_backtest.png" ∈
       applyShots [] (shots (comprehensiveRun envBuscarFail []).1) ∧
     (comprehensiveRun envBuscarFail []).2 =
       Except.error (Err.locatorNotFound "button:has-text(\x27Buscar Jogo\x27)")) ∧
    (shots (comprehensiveRun envDezenasFail []).1 =
       ["verification/success_backtest.png", "verification/fail_search.png"] ∧
     "verification/success_backtest.png" ∈
       applyShots [] (shots (comprehensiveRun envDezenasFail []).1) ∧
     (comprehensiveRun envDezenasFail []).2 =
       Except.error (Err.conditionTimeout "text=Dezenas do jogo 3000" 20000)) :=
  ⟨(claim9_earlier_success_shots_persist envFillFail []).1 ⟨rfl, rfl, rfl⟩ ⟨rfl, rfl, rfl, rfl, rfl⟩ rfl rfl,
   (claim9_earlier_success_shots_persist envBuscarFail []).2.1 ⟨rfl, rfl, rfl⟩ ⟨rfl, rfl, rfl, rfl, rfl⟩ rfl rfl rfl,
   (claim9_earlier_success_shots_persist envDezenasFail []).2.2 ⟨rfl, rfl, rfl⟩ ⟨rfl, rfl, rfl, rfl, rfl⟩ rfl rfl rfl rfl⟩

/-- Claim C10 (confirmed): in verify.py's suggestion-wait failure handler, the
`.bg-red-100` visibility check influences only the console output: whatever
value `is_visible` returns (the statement places no constraint on it), the
screenshots written are exactly `error_suggestion_2.png` and the exception
re-raised is the original suggestion-wait condition timeout. -/
theorem claim10_banner_check_only_console (env : Env)
    (h1 : env.gotoOk "http://localhost:5173" = true)
    (h2 : env.selectorAppears "h3:has-text(\x27Números Mais Sorteados (Top 10)\x27)" 60000 = true)
    (h3 : env.clickOk "button:has-text(\x27Gerar Jogo\x27)" = true)
    (h4 : env.selectorAppears "text=Seu jogo sugerido:" 10000 = false)
    (h5 : env.screenshotOk "verification/error_suggestion_2.png" = true) :
    shots (verifyRun env []).1 = ["verification/error_suggestion_2.png"] ∧
    (verifyRun env []).2 =
      Except.error (Err.conditionTimeout "text=Seu jogo sugerido:" 10000) := by
  cases hv : env.isVisible ".bg-red-100" <;>
    constructor <;>
      simp [verifyRun, shots, isShot, bindDef, pureDef, pyTry, pyBind, pyPure, pyThrow,
            pyPrint, pageGoto, waitForSelector, pageClick, pageScreenshot, pageIsVisible,
            h1, h2, h3, h4, h5, hv]

/-- Witness for C10: the statement instantiated both with the error banner
hidden and with it visible — same screenshot, same re-raised exception. -/
theorem claim10_witness :
    (shots (verifyRun envSuggFail []).1 = ["verification/error_suggestion_2.png"] ∧
     (verifyRun envSuggFail []).2 =
       Except.error (Err.conditionTimeout "text=Seu jogo sugerido:" 10000)) ∧
    (shots (verifyRun envSuggFailBanner []).1 = ["verification/error_suggestion_2.png"] ∧
     (verifyRun envSuggFailBanner []).2 =
       Except.error (Err.conditionTimeout "text=Seu jogo sugerido:" 10000)) :=
  ⟨claim10_banner_check_only_console envSuggFail rfl rfl rfl rfl rfl,
   claim10_banner_check_only_console envSuggFailBanner rfl rfl rfl rfl rfl⟩
